import Mathlib

/-!
Shallow embedding of `fast_log`'s `src/date.rs` (the `LogDate` calendar
timestamp type) and proofs about it.

Conventions of the embedding:
* Rust `u8`/`u16`/`u32`/`u64` values are modelled as `Nat`, `i64` as `Int`.
  At every place where the source performs a narrowing cast (`as u8` etc.)
  the operand is provably within range of the target type for every input
  in the function's supported domain, so the cast is the identity and is
  modelled as such; the one wrapping operation the source relies on,
  `u8::wrapping_sub` in the digit decoders, is modelled explicitly with
  `% 256`.
* Rust `i64` `/` and `%` truncate towards zero; they are modelled with
  `Int.tdiv` / `Int.tmod`.
* An epoch instant (`SystemTime` relative to `UNIX_EPOCH`) is modelled as a
  pair `(secs, nanos) : Nat × Nat` of whole seconds and the sub-second
  nanosecond remainder.
* Fallible operations (`Result<_, LogError>` and the `From<SystemTime>`
  panic) are modelled with `Option`.
-/

namespace FastLog

/-- The `LogDate` struct of `date.rs` (lines 14-31), field for field. -/
structure LogDate where
  nano : Nat
  sec : Nat
  min : Nat
  hour : Nat
  day : Nat
  mon : Nat
  year : Nat
  wday : Nat
deriving DecidableEq

/-- `LEAPOCH` constant (`date.rs` line 61): day offset of 2000-03-01. -/
def LEAPOCH : Int := 11017

/-- `DAYS_PER_400Y` constant (`date.rs` line 62). -/
def DAYS_PER_400Y : Int := 365 * 400 + 97

/-- `DAYS_PER_100Y` constant (`date.rs` line 63). -/
def DAYS_PER_100Y : Int := 365 * 100 + 24

/-- `DAYS_PER_4Y` constant (`date.rs` line 64). -/
def DAYS_PER_4Y : Int := 365 * 4 + 1

/-- The shifted month-length table of `date.rs` line 97 (March-first). -/
def months : List Int := [31, 30, 31, 30, 31, 31, 30, 31, 30, 31, 31, 29]

/-- The `for mon_len in months.iter()` loop of `date.rs` lines 98-105:
`mon` is incremented, then the loop breaks when `remdays < mon_len`,
otherwise subtracts and continues.  Returns the final `(mon, remdays)`. -/
def monthLoop : List Int → Nat → Int → Nat × Int
  | [], mon, remdays => (mon, remdays)
  | ml :: rest, mon, remdays =>
    if remdays < ml then (mon + 1, remdays)
    else monthLoop rest (mon + 1) (remdays - ml)

/-- Lines 69-75 of `date.rs`: truncating div/mod of `days` by
`DAYS_PER_400Y` followed by the negative-remainder correction branch. -/
def qcRem (days : Int) : Int × Int :=
  let qc_cycles := days.tdiv DAYS_PER_400Y
  let remdays := days.tmod DAYS_PER_400Y
  if remdays < 0 then (qc_cycles - 1, remdays + DAYS_PER_400Y)
  else (qc_cycles, remdays)

/-- Lines 77-112 of `date.rs`: from the (corrected) 400-year cycle count
and remaining days, produce `(year, mon, mday)` of the calendar date. -/
def civilFromRem (qc_cycles remdays : Int) : Nat × Nat × Nat :=
  let c_cycles := remdays.tdiv DAYS_PER_100Y
  let c_cycles := if c_cycles = 4 then c_cycles - 1 else c_cycles
  let remdays := remdays - c_cycles * DAYS_PER_100Y
  let q_cycles := remdays.tdiv DAYS_PER_4Y
  let q_cycles := if q_cycles = 25 then q_cycles - 1 else q_cycles
  let remdays := remdays - q_cycles * DAYS_PER_4Y
  let remyears := remdays.tdiv 365
  let remyears := if remyears = 4 then remyears - 1 else remyears
  let remdays := remdays - remyears * 365
  let year := 2000 + remyears + 4 * q_cycles + 100 * c_cycles + 400 * qc_cycles
  let ml := monthLoop months 0 remdays
  let mday := ml.2 + 1
  if ml.1 + 2 > 12 then ((year + 1).toNat, ml.1 - 10, mday.toNat)
  else (year.toNat, ml.1 + 2, mday.toNat)

/-- The date part of `From<SystemTime> for LogDate` (`date.rs` lines
60-112): calendar `(year, mon, mday)` of day number `D` since the epoch. -/
def civilFromDays (D : Nat) : Nat × Nat × Nat :=
  let days : Int := (D : Int) - LEAPOCH
  let qr := qcRem days
  civilFromRem qr.1 qr.2

/-- Lines 114-117 of `date.rs`: weekday of day number `D` since the epoch,
`(3 + days) % 7` (truncating `%`) bumped into `1..=7` when `<= 0`. -/
def wdayFromDays (D : Nat) : Nat :=
  let days : Int := (D : Int) - LEAPOCH
  let wday := (3 + days).tmod 7
  let wday := if wday ≤ 0 then wday + 7 else wday
  wday.toNat

/-- The total core of `From<SystemTime> for LogDate` (`date.rs` lines
48-130) on an in-range instant: seconds-of-day split plus the calendar
date and weekday of the day number.  The year-9999 panic guard is
modelled by `fromSystemTime` below. -/
def logDateFromInstant (secs nanos : Nat) : LogDate :=
  let secs_of_day := secs % 86400
  let c := civilFromDays (secs / 86400)
  { nano := nanos
    sec := secs_of_day % 60
    min := secs_of_day % 3600 / 60
    hour := secs_of_day / 3600
    day := c.2.2
    mon := c.2.1
    year := c.1
    wday := wdayFromDays (secs / 86400) }

/-- `From<SystemTime> for LogDate` (`date.rs` lines 48-130) including the
domain guard of lines 55-58: instants at or beyond year 10000
(`secs_since_epoch >= 253402300800`) make the source `panic!`, modelled
as `none`. -/
def fromSystemTime (secs nanos : Nat) : Option LogDate :=
  if secs ≥ 253402300800 then none
  else some (logDateFromInstant secs nanos)

/-- `is_leap_year` (`date.rs` lines 449-451). -/
def is_leap_year (y : Nat) : Bool :=
  y % 4 == 0 && (y % 100 != 0 || y % 400 == 0)

/-- The Jan-based cumulative month-length table of `From<LogDate> for
SystemTime` (`date.rs` lines 136-149).  The source's `_ => unreachable!()`
arm is modelled as `0`; every caller in the source reaches this only with
`mon` in `1..=12` (`is_valid` checks `0 < mon <= 12` first, and parsed
values always carry such a month). -/
def monthYdays : Nat → Nat
  | 1 => 0
  | 2 => 31
  | 3 => 59
  | 4 => 90
  | 5 => 120
  | 6 => 151
  | 7 => 181
  | 8 => 212
  | 9 => 243
  | 10 => 273
  | 11 => 304
  | 12 => 334
  | _ => 0

/-- The `days` computation of `From<LogDate> for SystemTime` (`date.rs`
lines 134-155): leap years strictly before `year` by inclusion-exclusion,
day-of-year from the table plus the leap-day correction, then total days
since the epoch.  Subtraction is `Nat` truncated subtraction; all callers
have `year ≥ 1970` (checked by `is_valid` before this runs) and `day ≥ 1`,
where it agrees with the source's `u16`/`u64` arithmetic. -/
def daysFromCivil (year mon day : Nat) : Nat :=
  let leap_years := ((year - 1) - 1968) / 4 - ((year - 1) - 1900) / 100 + ((year - 1) - 1600) / 400
  let ydays := monthYdays mon + day - 1
  let ydays := if is_leap_year year ∧ mon > 2 then ydays + 1 else ydays
  (year - 1970) * 365 + leap_years + ydays

/-- `From<LogDate> for SystemTime` (`date.rs` lines 132-161): the produced
instant's whole-second count.  The nanosecond field of `v` is not used. -/
def secsFromLogDate (v : LogDate) : Nat :=
  v.sec + v.min * 60 + v.hour * 3600 + daysFromCivil v.year v.mon v.day * 86400

/-- `From<LogDate> for SystemTime` as a full instant: the source builds
`UNIX_EPOCH + Duration::from_secs(..)`, so the nanosecond remainder of the
produced instant is always `0`. -/
def systemTimeFromLogDate (v : LogDate) : Nat × Nat :=
  (secsFromLogDate v, 0)

/-- `LogDate::is_valid` (`date.rs` lines 34-46): range checks and the
round-trip condition `LogDate::from(SystemTime::from(*self)) == self`.
In the source the round-trip conjunct runs only when every range check
passed (`&&` short-circuits), and under those range checks the instant is
provably below the year-10000 panic guard (`secs_valid_lt` below), so the
inner conversion is modelled by the total `logDateFromInstant` applied to
the instant `(secsFromLogDate v, 0)`. -/
def LogDate.is_valid (v : LogDate) : Bool :=
  decide (v.sec < 60) && decide (v.min < 60) && decide (v.hour < 24) &&
  decide (v.day > 0) && decide (v.day < 32) && decide (v.mon > 0) &&
  decide (v.mon ≤ 12) && decide (v.year ≥ 1970) && decide (v.year ≤ 9999) &&
  (logDateFromInstant (secsFromLogDate v) 0 == v)

-- sanity checks of the embedding on known dates (1970-01-01, 2000-02-29,
-- 2000-03-01, 1994-11-06)
example : civilFromDays 0 = (1970, 1, 1) := by decide
example : wdayFromDays 0 = 4 := by decide
example : civilFromDays 11016 = (2000, 2, 29) := by decide
example : civilFromDays 11017 = (2000, 3, 1) := by decide
example : daysFromCivil 2000 3 1 = 11017 := by decide
example : civilFromDays 9075 = (1994, 11, 6) := by decide
example : wdayFromDays 9075 = 7 := by decide

/-! ### The corrected 400-year divmod is the floor divmod -/

theorem qcRem_eq (days : Int) (h : -11017 ≤ days) :
    qcRem days = (days / 146097, days % 146097) := by
  have hB : DAYS_PER_400Y = (146097 : Int) := by norm_num [DAYS_PER_400Y]
  unfold qcRem
  rw [hB]
  rcases le_or_lt 0 days with hd | hd
  · rw [Int.tdiv_eq_ediv hd (by norm_num), Int.tmod_eq_emod hd (by norm_num)]
    rw [if_neg (by omega)]
  · have hneg : (-days).tdiv 146097 = 0 :=
      Int.tdiv_eq_zero_of_lt (by omega) (by omega)
    have hneg' : (-days).tdiv 146097 = -(days.tdiv 146097) := Int.neg_tdiv days 146097
    have ht : days.tdiv 146097 = 0 := by omega
    have hm := Int.tmod_add_tdiv days 146097
    rw [ht] at hm
    have hm' : days.tmod 146097 = days := by omega
    rw [ht, hm', if_pos hd]
    have : days / 146097 = -1 := by omega
    have : days % 146097 = days + 146097 := by omega
    simp only [Prod.mk.injEq]
    omega

/-! ### Exact characterisation of the capped divisions -/

theorem cappedDiv_spec (r b cap : Int) (hr : 0 ≤ r) (hb : 0 < b) :
    ∃ c : Int, (if r.tdiv b = cap then r.tdiv b - 1 else r.tdiv b) = c ∧
      ((r / b = cap ∧ c = cap - 1) ∨ (r / b ≠ cap ∧ c = r / b)) := by
  rw [Int.tdiv_eq_ediv hr (le_of_lt hb)]
  by_cases h : r / b = cap
  · exact ⟨cap - 1, by rw [if_pos h, h], Or.inl ⟨h, rfl⟩⟩
  · exact ⟨r / b, by rw [if_neg h], Or.inr ⟨h, rfl⟩⟩

/-! ### Month loop characterisation, one lemma per shifted month -/

/-- One continuing step of the month loop: the current month length is
not enough, subtract and move on. -/
theorem monthLoop_skip (ml : Int) (rest : List Int) (mon : Nat) (r : Int)
    (h : ¬ r < ml) :
    monthLoop (ml :: rest) mon r = monthLoop rest (mon + 1) (r - ml) := by
  simp only [monthLoop]
  rw [if_neg h]

/-- The stopping step of the month loop: the remaining days fit in the
current month. -/
theorem monthLoop_stop (ml : Int) (rest : List Int) (mon : Nat) (r : Int)
    (h : r < ml) :
    monthLoop (ml :: rest) mon r = (mon + 1, r) := by
  simp only [monthLoop]
  rw [if_pos h]

theorem monthLoop_m1 (r : Int) (h0 : 0 ≤ r) (h1 : r < 31) :
    monthLoop months 0 r = (1, r) := by
  simp only [months]
  rw [monthLoop_stop _ _ _ _ (by omega)]
  all_goals (simp only [Prod.mk.injEq, true_and]; omega)

theorem monthLoop_m2 (r : Int) (h0 : 31 ≤ r) (h1 : r < 61) :
    monthLoop months 0 r = (2, r - 31) := by
  simp only [months]
  rw [monthLoop_skip _ _ _ _ (not_lt.mpr (by omega)),
    monthLoop_stop _ _ _ _ (by omega)]
  all_goals (simp only [Prod.mk.injEq, true_and]; omega)

theorem monthLoop_m3 (r : Int) (h0 : 61 ≤ r) (h1 : r < 92) :
    monthLoop months 0 r = (3, r - 61) := by
  simp only [months]
  rw [monthLoop_skip _ _ _ _ (not_lt.mpr (by omega)),
    monthLoop_skip _ _ _ _ (not_lt.mpr (by omega)),
    monthLoop_stop _ _ _ _ (by omega)]
  all_goals (simp only [Prod.mk.injEq, true_and]; omega)

theorem monthLoop_m4 (r : Int) (h0 : 92 ≤ r) (h1 : r < 122) :
    monthLoop months 0 r = (4, r - 92) := by
  simp only [months]
  rw [monthLoop_skip _ _ _ _ (not_lt.mpr (by omega)),
    monthLoop_skip _ _ _ _ (not_lt.mpr (by omega)),
    monthLoop_skip _ _ _ _ (not_lt.mpr (by omega)),
    monthLoop_stop _ _ _ _ (by omega)]
  all_goals (simp only [Prod.mk.injEq, true_and]; omega)

theorem monthLoop_m5 (r : Int) (h0 : 122 ≤ r) (h1 : r < 153) :
    monthLoop months 0 r = (5, r - 122) := by
  simp only [months]
  rw [monthLoop_skip _ _ _ _ (not_lt.mpr (by omega)),
    monthLoop_skip _ _ _ _ (not_lt.mpr (by omega)),
    monthLoop_skip _ _ _ _ (not_lt.mpr (by omega)),
    monthLoop_skip _ _ _ _ (not_lt.mpr (by omega)),
    monthLoop_stop _ _ _ _ (by omega)]
  all_goals (simp only [Prod.mk.injEq, true_and]; omega)

theorem monthLoop_m6 (r : Int) (h0 : 153 ≤ r) (h1 : r < 184) :
    monthLoop months 0 r = (6, r - 153) := by
  simp only [months]
  rw [monthLoop_skip _ _ _ _ (not_lt.mpr (by omega)),
    monthLoop_skip _ _ _ _ (not_lt.mpr (by omega)),
    monthLoop_skip _ _ _ _ (not_lt.mpr (by omega)),
    monthLoop_skip _ _ _ _ (not_lt.mpr (by omega)),
    monthLoop_skip _ _ _ _ (not_lt.mpr (by omega)),
    monthLoop_stop _ _ _ _ (by omega)]
  all_goals (simp only [Prod.mk.injEq, true_and]; omega)

theorem monthLoop_m7 (r : Int) (h0 : 184 ≤ r) (h1 : r < 214) :
    monthLoop months 0 r = (7, r - 184) := by
  simp only [months]
  rw [monthLoop_skip _ _ _ _ (not_lt.mpr (by omega)),
    monthLoop_skip _ _ _ _ (not_lt.mpr (by omega)),
    monthLoop_skip _ _ _ _ (not_lt.mpr (by omega)),
    monthLoop_skip _ _ _ _ (not_lt.mpr (by omega)),
    monthLoop_skip _ _ _ _ (not_lt.mpr (by omega)),
    monthLoop_skip _ _ _ _ (not_lt.mpr (by omega)),
    monthLoop_stop _ _ _ _ (by omega)]
  all_goals (simp only [Prod.mk.injEq, true_and]; omega)

theorem monthLoop_m8 (r : Int) (h0 : 214 ≤ r) (h1 : r < 245) :
    monthLoop months 0 r = (8, r - 214) := by
  simp only [months]
  rw [monthLoop_skip _ _ _ _ (not_lt.mpr (by omega)),
    monthLoop_skip _ _ _ _ (not_lt.mpr (by omega)),
    monthLoop_skip _ _ _ _ (not_lt.mpr (by omega)),
    monthLoop_skip _ _ _ _ (not_lt.mpr (by omega)),
    monthLoop_skip _ _ _ _ (not_lt.mpr (by omega)),
    monthLoop_skip _ _ _ _ (not_lt.mpr (by omega)),
    monthLoop_skip _ _ _ _ (not_lt.mpr (by omega)),
    monthLoop_stop _ _ _ _ (by omega)]
  all_goals (simp only [Prod.mk.injEq, true_and]; omega)

theorem monthLoop_m9 (r : Int) (h0 : 245 ≤ r) (h1 : r < 275) :
    monthLoop months 0 r = (9, r - 245) := by
  simp only [months]
  rw [monthLoop_skip _ _ _ _ (not_lt.mpr (by omega)),
    monthLoop_skip _ _ _ _ (not_lt.mpr (by omega)),
    monthLoop_skip _ _ _ _ (not_lt.mpr (by omega)),
    monthLoop_skip _ _ _ _ (not_lt.mpr (by omega)),
    monthLoop_skip _ _ _ _ (not_lt.mpr (by omega)),
    monthLoop_skip _ _ _ _ (not_lt.mpr (by omega)),
    monthLoop_skip _ _ _ _ (not_lt.mpr (by omega)),
    monthLoop_skip _ _ _ _ (not_lt.mpr (by omega)),
    monthLoop_stop _ _ _ _ (by omega)]
  all_goals (simp only [Prod.mk.injEq, true_and]; omega)

theorem monthLoop_m10 (r : Int) (h0 : 275 ≤ r) (h1 : r < 306) :
    monthLoop months 0 r = (10, r - 275) := by
  simp only [months]
  rw [monthLoop_skip _ _ _ _ (not_lt.mpr (by omega)),
    monthLoop_skip _ _ _ _ (not_lt.mpr (by omega)),
    monthLoop_skip _ _ _ _ (not_lt.mpr (by omega)),
    monthLoop_skip _ _ _ _ (not_lt.mpr (by omega)),
    monthLoop_skip _ _ _ _ (not_lt.mpr (by omega)),
    monthLoop_skip _ _ _ _ (not_lt.mpr (by omega)),
    monthLoop_skip _ _ _ _ (not_lt.mpr (by omega)),
    monthLoop_skip _ _ _ _ (not_lt.mpr (by omega)),
    monthLoop_skip _ _ _ _ (not_lt.mpr (by omega)),
    monthLoop_stop _ _ _ _ (by omega)]
  all_goals (simp only [Prod.mk.injEq, true_and]; omega)

theorem monthLoop_m11 (r : Int) (h0 : 306 ≤ r) (h1 : r < 337) :
    monthLoop months 0 r = (11, r - 306) := by
  simp only [months]
  rw [monthLoop_skip _ _ _ _ (not_lt.mpr (by omega)),
    monthLoop_skip _ _ _ _ (not_lt.mpr (by omega)),
    monthLoop_skip _ _ _ _ (not_lt.mpr (by omega)),
    monthLoop_skip _ _ _ _ (not_lt.mpr (by omega)),
    monthLoop_skip _ _ _ _ (not_lt.mpr (by omega)),
    monthLoop_skip _ _ _ _ (not_lt.mpr (by omega)),
    monthLoop_skip _ _ _ _ (not_lt.mpr (by omega)),
    monthLoop_skip _ _ _ _ (not_lt.mpr (by omega)),
    monthLoop_skip _ _ _ _ (not_lt.mpr (by omega)),
    monthLoop_skip _ _ _ _ (not_lt.mpr (by omega)),
    monthLoop_stop _ _ _ _ (by omega)]
  all_goals (simp only [Prod.mk.injEq, true_and]; omega)

theorem monthLoop_m12 (r : Int) (h0 : 337 ≤ r) (h1 : r ≤ 365) :
    monthLoop months 0 r = (12, r - 337) := by
  simp only [months]
  rw [monthLoop_skip _ _ _ _ (not_lt.mpr (by omega)),
    monthLoop_skip _ _ _ _ (not_lt.mpr (by omega)),
    monthLoop_skip _ _ _ _ (not_lt.mpr (by omega)),
    monthLoop_skip _ _ _ _ (not_lt.mpr (by omega)),
    monthLoop_skip _ _ _ _ (not_lt.mpr (by omega)),
    monthLoop_skip _ _ _ _ (not_lt.mpr (by omega)),
    monthLoop_skip _ _ _ _ (not_lt.mpr (by omega)),
    monthLoop_skip _ _ _ _ (not_lt.mpr (by omega)),
    monthLoop_skip _ _ _ _ (not_lt.mpr (by omega)),
    monthLoop_skip _ _ _ _ (not_lt.mpr (by omega)),
    monthLoop_skip _ _ _ _ (not_lt.mpr (by omega)),
    monthLoop_stop _ _ _ _ (by omega)]
  all_goals (simp only [Prod.mk.injEq, true_and]; omega)

theorem is_leap_year_iff (y : Nat) :
    is_leap_year y = true ↔ (y % 4 = 0 ∧ (y % 100 ≠ 0 ∨ y % 400 = 0)) := by
  simp [is_leap_year, Bool.and_eq_true, Bool.or_eq_true, beq_iff_eq, bne_iff_ne]

/-! ### Closed forms of the leap-year-count divisions over the cycle
decomposition variables -/

theorem div4_closed (ry q c qc : Int) (h1 : 0 ≤ ry) (h2 : ry ≤ 3) (h3 : 0 ≤ q)
    (h4 : q ≤ 24) (h5 : 0 ≤ c) (h6 : c ≤ 3) (h7 : -1 ≤ qc)
    (hY : (1969 : Int) ≤ 2000 + ry + 4 * q + 100 * c + 400 * qc) :
    (((2000 + ry + 4 * q + 100 * c + 400 * qc).toNat - 1 - 1968) / 4 : Nat) =
      ((if ry = 0 then 7 else 8) + q + 25 * c + 100 * qc).toNat := by
  split_ifs <;> omega

theorem div100_closed (ry q c qc : Int) (h1 : 0 ≤ ry) (h2 : ry ≤ 3) (h3 : 0 ≤ q)
    (h4 : q ≤ 24) (h5 : 0 ≤ c) (h6 : c ≤ 3) (h7 : -1 ≤ qc)
    (hY : (1969 : Int) ≤ 2000 + ry + 4 * q + 100 * c + 400 * qc) :
    (((2000 + ry + 4 * q + 100 * c + 400 * qc).toNat - 1 - 1900) / 100 : Nat) =
      ((if ry = 0 ∧ q = 0 then 0 else 1) + c + 4 * qc).toNat := by
  split_ifs <;> omega

theorem div400_closed (ry q c qc : Int) (h1 : 0 ≤ ry) (h2 : ry ≤ 3) (h3 : 0 ≤ q)
    (h4 : q ≤ 24) (h5 : 0 ≤ c) (h6 : c ≤ 3) (h7 : -1 ≤ qc)
    (hY : (1969 : Int) ≤ 2000 + ry + 4 * q + 100 * c + 400 * qc) :
    (((2000 + ry + 4 * q + 100 * c + 400 * qc).toNat - 1 - 1600) / 400 : Nat) =
      ((if ry = 0 ∧ q = 0 ∧ c = 0 then 0 else 1) + qc).toNat := by
  split_ifs <;> omega

theorem div4_jf (ry q c qc : Int) (h1 : 0 ≤ ry) (h2 : ry ≤ 3) (h3 : 0 ≤ q)
    (h4 : q ≤ 24) (h5 : 0 ≤ c) (h6 : c ≤ 3) (h7 : -1 ≤ qc)
    (hY : (1969 : Int) ≤ 2000 + ry + 4 * q + 100 * c + 400 * qc) :
    (((2000 + ry + 4 * q + 100 * c + 400 * qc + 1).toNat - 1 - 1968) / 4 : Nat) =
      (8 + q + 25 * c + 100 * qc).toNat := by
  omega

theorem div100_jf (ry q c qc : Int) (h1 : 0 ≤ ry) (h2 : ry ≤ 3) (h3 : 0 ≤ q)
    (h4 : q ≤ 24) (h5 : 0 ≤ c) (h6 : c ≤ 3) (h7 : -1 ≤ qc)
    (hY : (1969 : Int) ≤ 2000 + ry + 4 * q + 100 * c + 400 * qc) :
    (((2000 + ry + 4 * q + 100 * c + 400 * qc + 1).toNat - 1 - 1900) / 100 : Nat) =
      (1 + c + 4 * qc).toNat := by
  omega

theorem div400_jf (ry q c qc : Int) (h1 : 0 ≤ ry) (h2 : ry ≤ 3) (h3 : 0 ≤ q)
    (h4 : q ≤ 24) (h5 : 0 ≤ c) (h6 : c ≤ 3) (h7 : -1 ≤ qc)
    (hY : (1969 : Int) ≤ 2000 + ry + 4 * q + 100 * c + 400 * qc) :
    (((2000 + ry + 4 * q + 100 * c + 400 * qc + 1).toNat - 1 - 1600) / 400 : Nat) =
      (1 + qc).toNat := by
  omega

theorem leap_structure (ry q c qc : Int) (h1 : 0 ≤ ry) (h2 : ry ≤ 3) (h3 : 0 ≤ q)
    (h4 : q ≤ 24) (h5 : 0 ≤ c) (h6 : c ≤ 3) (h7 : -1 ≤ qc)
    (hY : (1969 : Int) ≤ 2000 + ry + 4 * q + 100 * c + 400 * qc) :
    (is_leap_year (2000 + ry + 4 * q + 100 * c + 400 * qc).toNat = true) ↔
      (ry = 0 ∧ (q ≠ 0 ∨ c = 0)) := by
  rw [is_leap_year_iff]
  constructor
  · rintro ⟨ha, hb | hb⟩ <;> omega
  · rintro ⟨ha, hb⟩
    refine ⟨by omega, ?_⟩
    rcases hb with hb | hb
    · left; omega
    · rcases eq_or_ne q 0 with hq | hq
      · right; omega
      · left; omega

/-! ### Per-month leaves of the day-level round trip -/

theorem rtLeaf_m1 (D : Nat) (qc rem c q ry r4 : Int)
    (hrep : (D : Int) - 11017 = 146097 * qc + rem)
    (h0 : 0 ≤ rem) (h1 : rem < 146097)
    (hcL : (36524 * c ≤ rem ∧ rem < 36524 * (c + 1)) ∨ (c = 3 ∧ rem = 146096))
    (hqL : 1461 * q ≤ rem - c * 36524 ∧ rem - c * 36524 < 1461 * (q + 1))
    (hryL : (365 * ry ≤ rem - c * 36524 - q * 1461 ∧
      rem - c * 36524 - q * 1461 < 365 * (ry + 1)) ∨
      (ry = 3 ∧ rem - c * 36524 - q * 1461 = 1460))
    (b1 : 0 ≤ ry) (b2 : ry ≤ 3) (b3 : 0 ≤ q) (b4 : q ≤ 24) (b5 : 0 ≤ c) (b6 : c ≤ 3)
    (b7 : -1 ≤ qc)
    (hY : (1969 : Int) ≤ 2000 + ry + 4 * q + 100 * c + 400 * qc)
    (hr4 : r4 = rem - c * 36524 - q * 1461 - ry * 365)
    (h : 0 ≤ r4 ∧ r4 < 31) :
    daysFromCivil (2000 + ry + 4 * q + 100 * c + 400 * qc).toNat 3 (r4 + 1).toNat = D ∧ 1970 ≤ (2000 + ry + 4 * q + 100 * c + 400 * qc).toNat := by
  norm_num [daysFromCivil, monthYdays]
  rw [div4_closed ry q c qc b1 b2 b3 b4 b5 b6 b7 hY,
    div100_closed ry q c qc b1 b2 b3 b4 b5 b6 b7 hY,
    div400_closed ry q c qc b1 b2 b3 b4 b5 b6 b7 hY]
  simp only [leap_structure ry q c qc b1 b2 b3 b4 b5 b6 b7 hY]
  rcases eq_or_ne ry 0 with hry | hry
  · rcases eq_or_ne q 0 with hq | hq
    · rcases eq_or_ne c 0 with hc | hc
      · rw [if_pos (⟨hry, Or.inr hc⟩ : ry = 0 ∧ (q ≠ 0 ∨ c = 0)), if_pos hry,
          if_pos (⟨hry, hq⟩ : ry = 0 ∧ q = 0), if_pos (⟨hry, hq, hc⟩ : ry = 0 ∧ q = 0 ∧ c = 0)]
        omega
      · rw [if_neg (fun hh : ry = 0 ∧ (q ≠ 0 ∨ c = 0) => hh.2.elim (fun h2 => h2 hq) hc),
          if_pos hry, if_pos (⟨hry, hq⟩ : ry = 0 ∧ q = 0),
          if_neg (fun hh : ry = 0 ∧ q = 0 ∧ c = 0 => hc hh.2.2)]
        omega
    · rw [if_pos (⟨hry, Or.inl hq⟩ : ry = 0 ∧ (q ≠ 0 ∨ c = 0)), if_pos hry,
        if_neg (fun hh : ry = 0 ∧ q = 0 => hq hh.2),
        if_neg (fun hh : ry = 0 ∧ q = 0 ∧ c = 0 => hq hh.2.1)]
      omega
  · rw [if_neg (fun hh : ry = 0 ∧ (q ≠ 0 ∨ c = 0) => hry hh.1), if_neg hry,
      if_neg (fun hh : ry = 0 ∧ q = 0 => hry hh.1),
      if_neg (fun hh : ry = 0 ∧ q = 0 ∧ c = 0 => hry hh.1)]
    omega

theorem rtLeaf_m2 (D : Nat) (qc rem c q ry r4 : Int)
    (hrep : (D : Int) - 11017 = 146097 * qc + rem)
    (h0 : 0 ≤ rem) (h1 : rem < 146097)
    (hcL : (36524 * c ≤ rem ∧ rem < 36524 * (c + 1)) ∨ (c = 3 ∧ rem = 146096))
    (hqL : 1461 * q ≤ rem - c * 36524 ∧ rem - c * 36524 < 1461 * (q + 1))
    (hryL : (365 * ry ≤ rem - c * 36524 - q * 1461 ∧
      rem - c * 36524 - q * 1461 < 365 * (ry + 1)) ∨
      (ry = 3 ∧ rem - c * 36524 - q * 1461 = 1460))
    (b1 : 0 ≤ ry) (b2 : ry ≤ 3) (b3 : 0 ≤ q) (b4 : q ≤ 24) (b5 : 0 ≤ c) (b6 : c ≤ 3)
    (b7 : -1 ≤ qc)
    (hY : (1969 : Int) ≤ 2000 + ry + 4 * q + 100 * c + 400 * qc)
    (hr4 : r4 = rem - c * 36524 - q * 1461 - ry * 365)
    (h : 31 ≤ r4 ∧ r4 < 61) :
    daysFromCivil (2000 + ry + 4 * q + 100 * c + 400 * qc).toNat 4 (r4 - 31 + 1).toNat = D ∧ 1970 ≤ (2000 + ry + 4 * q + 100 * c + 400 * qc).toNat := by
  norm_num [daysFromCivil, monthYdays]
  rw [div4_closed ry q c qc b1 b2 b3 b4 b5 b6 b7 hY,
    div100_closed ry q c qc b1 b2 b3 b4 b5 b6 b7 hY,
    div400_closed ry q c qc b1 b2 b3 b4 b5 b6 b7 hY]
  simp only [leap_structure ry q c qc b1 b2 b3 b4 b5 b6 b7 hY]
  rcases eq_or_ne ry 0 with hry | hry
  · rcases eq_or_ne q 0 with hq | hq
    · rcases eq_or_ne c 0 with hc | hc
      · rw [if_pos (⟨hry, Or.inr hc⟩ : ry = 0 ∧ (q ≠ 0 ∨ c = 0)), if_pos hry,
          if_pos (⟨hry, hq⟩ : ry = 0 ∧ q = 0), if_pos (⟨hry, hq, hc⟩ : ry = 0 ∧ q = 0 ∧ c = 0)]
        omega
      · rw [if_neg (fun hh : ry = 0 ∧ (q ≠ 0 ∨ c = 0) => hh.2.elim (fun h2 => h2 hq) hc),
          if_pos hry, if_pos (⟨hry, hq⟩ : ry = 0 ∧ q = 0),
          if_neg (fun hh : ry = 0 ∧ q = 0 ∧ c = 0 => hc hh.2.2)]
        omega
    · rw [if_pos (⟨hry, Or.inl hq⟩ : ry = 0 ∧ (q ≠ 0 ∨ c = 0)), if_pos hry,
        if_neg (fun hh : ry = 0 ∧ q = 0 => hq hh.2),
        if_neg (fun hh : ry = 0 ∧ q = 0 ∧ c = 0 => hq hh.2.1)]
      omega
  · rw [if_neg (fun hh : ry = 0 ∧ (q ≠ 0 ∨ c = 0) => hry hh.1), if_neg hry,
      if_neg (fun hh : ry = 0 ∧ q = 0 => hry hh.1),
      if_neg (fun hh : ry = 0 ∧ q = 0 ∧ c = 0 => hry hh.1)]
    omega

theorem rtLeaf_m3 (D : Nat) (qc rem c q ry r4 : Int)
    (hrep : (D : Int) - 11017 = 146097 * qc + rem)
    (h0 : 0 ≤ rem) (h1 : rem < 146097)
    (hcL : (36524 * c ≤ rem ∧ rem < 36524 * (c + 1)) ∨ (c = 3 ∧ rem = 146096))
    (hqL : 1461 * q ≤ rem - c * 36524 ∧ rem - c * 36524 < 1461 * (q + 1))
    (hryL : (365 * ry ≤ rem - c * 36524 - q * 1461 ∧
      rem - c * 36524 - q * 1461 < 365 * (ry + 1)) ∨
      (ry = 3 ∧ rem - c * 36524 - q * 1461 = 1460))
    (b1 : 0 ≤ ry) (b2 : ry ≤ 3) (b3 : 0 ≤ q) (b4 : q ≤ 24) (b5 : 0 ≤ c) (b6 : c ≤ 3)
    (b7 : -1 ≤ qc)
    (hY : (1969 : Int) ≤ 2000 + ry + 4 * q + 100 * c + 400 * qc)
    (hr4 : r4 = rem - c * 36524 - q * 1461 - ry * 365)
    (h : 61 ≤ r4 ∧ r4 < 92) :
    daysFromCivil (2000 + ry + 4 * q + 100 * c + 400 * qc).toNat 5 (r4 - 61 + 1).toNat = D ∧ 1970 ≤ (2000 + ry + 4 * q + 100 * c + 400 * qc).toNat := by
  norm_num [daysFromCivil, monthYdays]
  rw [div4_closed ry q c qc b1 b2 b3 b4 b5 b6 b7 hY,
    div100_closed ry q c qc b1 b2 b3 b4 b5 b6 b7 hY,
    div400_closed ry q c qc b1 b2 b3 b4 b5 b6 b7 hY]
  simp only [leap_structure ry q c qc b1 b2 b3 b4 b5 b6 b7 hY]
  rcases eq_or_ne ry 0 with hry | hry
  · rcases eq_or_ne q 0 with hq | hq
    · rcases eq_or_ne c 0 with hc | hc
      · rw [if_pos (⟨hry, Or.inr hc⟩ : ry = 0 ∧ (q ≠ 0 ∨ c = 0)), if_pos hry,
          if_pos (⟨hry, hq⟩ : ry = 0 ∧ q = 0), if_pos (⟨hry, hq, hc⟩ : ry = 0 ∧ q = 0 ∧ c = 0)]
        omega
      · rw [if_neg (fun hh : ry = 0 ∧ (q ≠ 0 ∨ c = 0) => hh.2.elim (fun h2 => h2 hq) hc),
          if_pos hry, if_pos (⟨hry, hq⟩ : ry = 0 ∧ q = 0),
          if_neg (fun hh : ry = 0 ∧ q = 0 ∧ c = 0 => hc hh.2.2)]
        omega
    · rw [if_pos (⟨hry, Or.inl hq⟩ : ry = 0 ∧ (q ≠ 0 ∨ c = 0)), if_pos hry,
        if_neg (fun hh : ry = 0 ∧ q = 0 => hq hh.2),
        if_neg (fun hh : ry = 0 ∧ q = 0 ∧ c = 0 => hq hh.2.1)]
      omega
  · rw [if_neg (fun hh : ry = 0 ∧ (q ≠ 0 ∨ c = 0) => hry hh.1), if_neg hry,
      if_neg (fun hh : ry = 0 ∧ q = 0 => hry hh.1),
      if_neg (fun hh : ry = 0 ∧ q = 0 ∧ c = 0 => hry hh.1)]
    omega

theorem rtLeaf_m4 (D : Nat) (qc rem c q ry r4 : Int)
    (hrep : (D : Int) - 11017 = 146097 * qc + rem)
    (h0 : 0 ≤ rem) (h1 : rem < 146097)
    (hcL : (36524 * c ≤ rem ∧ rem < 36524 * (c + 1)) ∨ (c = 3 ∧ rem = 146096))
    (hqL : 1461 * q ≤ rem - c * 36524 ∧ rem - c * 36524 < 1461 * (q + 1))
    (hryL : (365 * ry ≤ rem - c * 36524 - q * 1461 ∧
      rem - c * 36524 - q * 1461 < 365 * (ry + 1)) ∨
      (ry = 3 ∧ rem - c * 36524 - q * 1461 = 1460))
    (b1 : 0 ≤ ry) (b2 : ry ≤ 3) (b3 : 0 ≤ q) (b4 : q ≤ 24) (b5 : 0 ≤ c) (b6 : c ≤ 3)
    (b7 : -1 ≤ qc)
    (hY : (1969 : Int) ≤ 2000 + ry + 4 * q + 100 * c + 400 * qc)
    (hr4 : r4 = rem - c * 36524 - q * 1461 - ry * 365)
    (h : 92 ≤ r4 ∧ r4 < 122) :
    daysFromCivil (2000 + ry + 4 * q + 100 * c + 400 * qc).toNat 6 (r4 - 92 + 1).toNat = D ∧ 1970 ≤ (2000 + ry + 4 * q + 100 * c + 400 * qc).toNat := by
  norm_num [daysFromCivil, monthYdays]
  rw [div4_closed ry q c qc b1 b2 b3 b4 b5 b6 b7 hY,
    div100_closed ry q c qc b1 b2 b3 b4 b5 b6 b7 hY,
    div400_closed ry q c qc b1 b2 b3 b4 b5 b6 b7 hY]
  simp only [leap_structure ry q c qc b1 b2 b3 b4 b5 b6 b7 hY]
  rcases eq_or_ne ry 0 with hry | hry
  · rcases eq_or_ne q 0 with hq | hq
    · rcases eq_or_ne c 0 with hc | hc
      · rw [if_pos (⟨hry, Or.inr hc⟩ : ry = 0 ∧ (q ≠ 0 ∨ c = 0)), if_pos hry,
          if_pos (⟨hry, hq⟩ : ry = 0 ∧ q = 0), if_pos (⟨hry, hq, hc⟩ : ry = 0 ∧ q = 0 ∧ c = 0)]
        omega
      · rw [if_neg (fun hh : ry = 0 ∧ (q ≠ 0 ∨ c = 0) => hh.2.elim (fun h2 => h2 hq) hc),
          if_pos hry, if_pos (⟨hry, hq⟩ : ry = 0 ∧ q = 0),
          if_neg (fun hh : ry = 0 ∧ q = 0 ∧ c = 0 => hc hh.2.2)]
        omega
    · rw [if_pos (⟨hry, Or.inl hq⟩ : ry = 0 ∧ (q ≠ 0 ∨ c = 0)), if_pos hry,
        if_neg (fun hh : ry = 0 ∧ q = 0 => hq hh.2),
        if_neg (fun hh : ry = 0 ∧ q = 0 ∧ c = 0 => hq hh.2.1)]
      omega
  · rw [if_neg (fun hh : ry = 0 ∧ (q ≠ 0 ∨ c = 0) => hry hh.1), if_neg hry,
      if_neg (fun hh : ry = 0 ∧ q = 0 => hry hh.1),
      if_neg (fun hh : ry = 0 ∧ q = 0 ∧ c = 0 => hry hh.1)]
    omega

theorem rtLeaf_m5 (D : Nat) (qc rem c q ry r4 : Int)
    (hrep : (D : Int) - 11017 = 146097 * qc + rem)
    (h0 : 0 ≤ rem) (h1 : rem < 146097)
    (hcL : (36524 * c ≤ rem ∧ rem < 36524 * (c + 1)) ∨ (c = 3 ∧ rem = 146096))
    (hqL : 1461 * q ≤ rem - c * 36524 ∧ rem - c * 36524 < 1461 * (q + 1))
    (hryL : (365 * ry ≤ rem - c * 36524 - q * 1461 ∧
      rem - c * 36524 - q * 1461 < 365 * (ry + 1)) ∨
      (ry = 3 ∧ rem - c * 36524 - q * 1461 = 1460))
    (b1 : 0 ≤ ry) (b2 : ry ≤ 3) (b3 : 0 ≤ q) (b4 : q ≤ 24) (b5 : 0 ≤ c) (b6 : c ≤ 3)
    (b7 : -1 ≤ qc)
    (hY : (1969 : Int) ≤ 2000 + ry + 4 * q + 100 * c + 400 * qc)
    (hr4 : r4 = rem - c * 36524 - q * 1461 - ry * 365)
    (h : 122 ≤ r4 ∧ r4 < 153) :
    daysFromCivil (2000 + ry + 4 * q + 100 * c + 400 * qc).toNat 7 (r4 - 122 + 1).toNat = D ∧ 1970 ≤ (2000 + ry + 4 * q + 100 * c + 400 * qc).toNat := by
  norm_num [daysFromCivil, monthYdays]
  rw [div4_closed ry q c qc b1 b2 b3 b4 b5 b6 b7 hY,
    div100_closed ry q c qc b1 b2 b3 b4 b5 b6 b7 hY,
    div400_closed ry q c qc b1 b2 b3 b4 b5 b6 b7 hY]
  simp only [leap_structure ry q c qc b1 b2 b3 b4 b5 b6 b7 hY]
  rcases eq_or_ne ry 0 with hry | hry
  · rcases eq_or_ne q 0 with hq | hq
    · rcases eq_or_ne c 0 with hc | hc
      · rw [if_pos (⟨hry, Or.inr hc⟩ : ry = 0 ∧ (q ≠ 0 ∨ c = 0)), if_pos hry,
          if_pos (⟨hry, hq⟩ : ry = 0 ∧ q = 0), if_pos (⟨hry, hq, hc⟩ : ry = 0 ∧ q = 0 ∧ c = 0)]
        omega
      · rw [if_neg (fun hh : ry = 0 ∧ (q ≠ 0 ∨ c = 0) => hh.2.elim (fun h2 => h2 hq) hc),
          if_pos hry, if_pos (⟨hry, hq⟩ : ry = 0 ∧ q = 0),
          if_neg (fun hh : ry = 0 ∧ q = 0 ∧ c = 0 => hc hh.2.2)]
        omega
    · rw [if_pos (⟨hry, Or.inl hq⟩ : ry = 0 ∧ (q ≠ 0 ∨ c = 0)), if_pos hry,
        if_neg (fun hh : ry = 0 ∧ q = 0 => hq hh.2),
        if_neg (fun hh : ry = 0 ∧ q = 0 ∧ c = 0 => hq hh.2.1)]
      omega
  · rw [if_neg (fun hh : ry = 0 ∧ (q ≠ 0 ∨ c = 0) => hry hh.1), if_neg hry,
      if_neg (fun hh : ry = 0 ∧ q = 0 => hry hh.1),
      if_neg (fun hh : ry = 0 ∧ q = 0 ∧ c = 0 => hry hh.1)]
    omega

theorem rtLeaf_m6 (D : Nat) (qc rem c q ry r4 : Int)
    (hrep : (D : Int) - 11017 = 146097 * qc + rem)
    (h0 : 0 ≤ rem) (h1 : rem < 146097)
    (hcL : (36524 * c ≤ rem ∧ rem < 36524 * (c + 1)) ∨ (c = 3 ∧ rem = 146096))
    (hqL : 1461 * q ≤ rem - c * 36524 ∧ rem - c * 36524 < 1461 * (q + 1))
    (hryL : (365 * ry ≤ rem - c * 36524 - q * 1461 ∧
      rem - c * 36524 - q * 1461 < 365 * (ry + 1)) ∨
      (ry = 3 ∧ rem - c * 36524 - q * 1461 = 1460))
    (b1 : 0 ≤ ry) (b2 : ry ≤ 3) (b3 : 0 ≤ q) (b4 : q ≤ 24) (b5 : 0 ≤ c) (b6 : c ≤ 3)
    (b7 : -1 ≤ qc)
    (hY : (1969 : Int) ≤ 2000 + ry + 4 * q + 100 * c + 400 * qc)
    (hr4 : r4 = rem - c * 36524 - q * 1461 - ry * 365)
    (h : 153 ≤ r4 ∧ r4 < 184) :
    daysFromCivil (2000 + ry + 4 * q + 100 * c + 400 * qc).toNat 8 (r4 - 153 + 1).toNat = D ∧ 1970 ≤ (2000 + ry + 4 * q + 100 * c + 400 * qc).toNat := by
  norm_num [daysFromCivil, monthYdays]
  rw [div4_closed ry q c qc b1 b2 b3 b4 b5 b6 b7 hY,
    div100_closed ry q c qc b1 b2 b3 b4 b5 b6 b7 hY,
    div400_closed ry q c qc b1 b2 b3 b4 b5 b6 b7 hY]
  simp only [leap_structure ry q c qc b1 b2 b3 b4 b5 b6 b7 hY]
  rcases eq_or_ne ry 0 with hry | hry
  · rcases eq_or_ne q 0 with hq | hq
    · rcases eq_or_ne c 0 with hc | hc
      · rw [if_pos (⟨hry, Or.inr hc⟩ : ry = 0 ∧ (q ≠ 0 ∨ c = 0)), if_pos hry,
          if_pos (⟨hry, hq⟩ : ry = 0 ∧ q = 0), if_pos (⟨hry, hq, hc⟩ : ry = 0 ∧ q = 0 ∧ c = 0)]
        omega
      · rw [if_neg (fun hh : ry = 0 ∧ (q ≠ 0 ∨ c = 0) => hh.2.elim (fun h2 => h2 hq) hc),
          if_pos hry, if_pos (⟨hry, hq⟩ : ry = 0 ∧ q = 0),
          if_neg (fun hh : ry = 0 ∧ q = 0 ∧ c = 0 => hc hh.2.2)]
        omega
    · rw [if_pos (⟨hry, Or.inl hq⟩ : ry = 0 ∧ (q ≠ 0 ∨ c = 0)), if_pos hry,
        if_neg (fun hh : ry = 0 ∧ q = 0 => hq hh.2),
        if_neg (fun hh : ry = 0 ∧ q = 0 ∧ c = 0 => hq hh.2.1)]
      omega
  · rw [if_neg (fun hh : ry = 0 ∧ (q ≠ 0 ∨ c = 0) => hry hh.1), if_neg hry,
      if_neg (fun hh : ry = 0 ∧ q = 0 => hry hh.1),
      if_neg (fun hh : ry = 0 ∧ q = 0 ∧ c = 0 => hry hh.1)]
    omega

theorem rtLeaf_m7 (D : Nat) (qc rem c q ry r4 : Int)
    (hrep : (D : Int) - 11017 = 146097 * qc + rem)
    (h0 : 0 ≤ rem) (h1 : rem < 146097)
    (hcL : (36524 * c ≤ rem ∧ rem < 36524 * (c + 1)) ∨ (c = 3 ∧ rem = 146096))
    (hqL : 1461 * q ≤ rem - c * 36524 ∧ rem - c * 36524 < 1461 * (q + 1))
    (hryL : (365 * ry ≤ rem - c * 36524 - q * 1461 ∧
      rem - c * 36524 - q * 1461 < 365 * (ry + 1)) ∨
      (ry = 3 ∧ rem - c * 36524 - q * 1461 = 1460))
    (b1 : 0 ≤ ry) (b2 : ry ≤ 3) (b3 : 0 ≤ q) (b4 : q ≤ 24) (b5 : 0 ≤ c) (b6 : c ≤ 3)
    (b7 : -1 ≤ qc)
    (hY : (1969 : Int) ≤ 2000 + ry + 4 * q + 100 * c + 400 * qc)
    (hr4 : r4 = rem - c * 36524 - q * 1461 - ry * 365)
    (h : 184 ≤ r4 ∧ r4 < 214) :
    daysFromCivil (2000 + ry + 4 * q + 100 * c + 400 * qc).toNat 9 (r4 - 184 + 1).toNat = D ∧ 1970 ≤ (2000 + ry + 4 * q + 100 * c + 400 * qc).toNat := by
  norm_num [daysFromCivil, monthYdays]
  rw [div4_closed ry q c qc b1 b2 b3 b4 b5 b6 b7 hY,
    div100_closed ry q c qc b1 b2 b3 b4 b5 b6 b7 hY,
    div400_closed ry q c qc b1 b2 b3 b4 b5 b6 b7 hY]
  simp only [leap_structure ry q c qc b1 b2 b3 b4 b5 b6 b7 hY]
  rcases eq_or_ne ry 0 with hry | hry
  · rcases eq_or_ne q 0 with hq | hq
    · rcases eq_or_ne c 0 with hc | hc
      · rw [if_pos (⟨hry, Or.inr hc⟩ : ry = 0 ∧ (q ≠ 0 ∨ c = 0)), if_pos hry,
          if_pos (⟨hry, hq⟩ : ry = 0 ∧ q = 0), if_pos (⟨hry, hq, hc⟩ : ry = 0 ∧ q = 0 ∧ c = 0)]
        omega
      · rw [if_neg (fun hh : ry = 0 ∧ (q ≠ 0 ∨ c = 0) => hh.2.elim (fun h2 => h2 hq) hc),
          if_pos hry, if_pos (⟨hry, hq⟩ : ry = 0 ∧ q = 0),
          if_neg (fun hh : ry = 0 ∧ q = 0 ∧ c = 0 => hc hh.2.2)]
        omega
    · rw [if_pos (⟨hry, Or.inl hq⟩ : ry = 0 ∧ (q ≠ 0 ∨ c = 0)), if_pos hry,
        if_neg (fun hh : ry = 0 ∧ q = 0 => hq hh.2),
        if_neg (fun hh : ry = 0 ∧ q = 0 ∧ c = 0 => hq hh.2.1)]
      omega
  · rw [if_neg (fun hh : ry = 0 ∧ (q ≠ 0 ∨ c = 0) => hry hh.1), if_neg hry,
      if_neg (fun hh : ry = 0 ∧ q = 0 => hry hh.1),
      if_neg (fun hh : ry = 0 ∧ q = 0 ∧ c = 0 => hry hh.1)]
    omega

theorem rtLeaf_m8 (D : Nat) (qc rem c q ry r4 : Int)
    (hrep : (D : Int) - 11017 = 146097 * qc + rem)
    (h0 : 0 ≤ rem) (h1 : rem < 146097)
    (hcL : (36524 * c ≤ rem ∧ rem < 36524 * (c + 1)) ∨ (c = 3 ∧ rem = 146096))
    (hqL : 1461 * q ≤ rem - c * 36524 ∧ rem - c * 36524 < 1461 * (q + 1))
    (hryL : (365 * ry ≤ rem - c * 36524 - q * 1461 ∧
      rem - c * 36524 - q * 1461 < 365 * (ry + 1)) ∨
      (ry = 3 ∧ rem - c * 36524 - q * 1461 = 1460))
    (b1 : 0 ≤ ry) (b2 : ry ≤ 3) (b3 : 0 ≤ q) (b4 : q ≤ 24) (b5 : 0 ≤ c) (b6 : c ≤ 3)
    (b7 : -1 ≤ qc)
    (hY : (1969 : Int) ≤ 2000 + ry + 4 * q + 100 * c + 400 * qc)
    (hr4 : r4 = rem - c * 36524 - q * 1461 - ry * 365)
    (h : 214 ≤ r4 ∧ r4 < 245) :
    daysFromCivil (2000 + ry + 4 * q + 100 * c + 400 * qc).toNat 10 (r4 - 214 + 1).toNat = D ∧ 1970 ≤ (2000 + ry + 4 * q + 100 * c + 400 * qc).toNat := by
  norm_num [daysFromCivil, monthYdays]
  rw [div4_closed ry q c qc b1 b2 b3 b4 b5 b6 b7 hY,
    div100_closed ry q c qc b1 b2 b3 b4 b5 b6 b7 hY,
    div400_closed ry q c qc b1 b2 b3 b4 b5 b6 b7 hY]
  simp only [leap_structure ry q c qc b1 b2 b3 b4 b5 b6 b7 hY]
  rcases eq_or_ne ry 0 with hry | hry
  · rcases eq_or_ne q 0 with hq | hq
    · rcases eq_or_ne c 0 with hc | hc
      · rw [if_pos (⟨hry, Or.inr hc⟩ : ry = 0 ∧ (q ≠ 0 ∨ c = 0)), if_pos hry,
          if_pos (⟨hry, hq⟩ : ry = 0 ∧ q = 0), if_pos (⟨hry, hq, hc⟩ : ry = 0 ∧ q = 0 ∧ c = 0)]
        omega
      · rw [if_neg (fun hh : ry = 0 ∧ (q ≠ 0 ∨ c = 0) => hh.2.elim (fun h2 => h2 hq) hc),
          if_pos hry, if_pos (⟨hry, hq⟩ : ry = 0 ∧ q = 0),
          if_neg (fun hh : ry = 0 ∧ q = 0 ∧ c = 0 => hc hh.2.2)]
        omega
    · rw [if_pos (⟨hry, Or.inl hq⟩ : ry = 0 ∧ (q ≠ 0 ∨ c = 0)), if_pos hry,
        if_neg (fun hh : ry = 0 ∧ q = 0 => hq hh.2),
        if_neg (fun hh : ry = 0 ∧ q = 0 ∧ c = 0 => hq hh.2.1)]
      omega
  · rw [if_neg (fun hh : ry = 0 ∧ (q ≠ 0 ∨ c = 0) => hry hh.1), if_neg hry,
      if_neg (fun hh : ry = 0 ∧ q = 0 => hry hh.1),
      if_neg (fun hh : ry = 0 ∧ q = 0 ∧ c = 0 => hry hh.1)]
    omega

theorem rtLeaf_m9 (D : Nat) (qc rem c q ry r4 : Int)
    (hrep : (D : Int) - 11017 = 146097 * qc + rem)
    (h0 : 0 ≤ rem) (h1 : rem < 146097)
    (hcL : (36524 * c ≤ rem ∧ rem < 36524 * (c + 1)) ∨ (c = 3 ∧ rem = 146096))
    (hqL : 1461 * q ≤ rem - c * 36524 ∧ rem - c * 36524 < 1461 * (q + 1))
    (hryL : (365 * ry ≤ rem - c * 36524 - q * 1461 ∧
      rem - c * 36524 - q * 1461 < 365 * (ry + 1)) ∨
      (ry = 3 ∧ rem - c * 36524 - q * 1461 = 1460))
    (b1 : 0 ≤ ry) (b2 : ry ≤ 3) (b3 : 0 ≤ q) (b4 : q ≤ 24) (b5 : 0 ≤ c) (b6 : c ≤ 3)
    (b7 : -1 ≤ qc)
    (hY : (1969 : Int) ≤ 2000 + ry + 4 * q + 100 * c + 400 * qc)
    (hr4 : r4 = rem - c * 36524 - q * 1461 - ry * 365)
    (h : 245 ≤ r4 ∧ r4 < 275) :
    daysFromCivil (2000 + ry + 4 * q + 100 * c + 400 * qc).toNat 11 (r4 - 245 + 1).toNat = D ∧ 1970 ≤ (2000 + ry + 4 * q + 100 * c + 400 * qc).toNat := by
  norm_num [daysFromCivil, monthYdays]
  rw [div4_closed ry q c qc b1 b2 b3 b4 b5 b6 b7 hY,
    div100_closed ry q c qc b1 b2 b3 b4 b5 b6 b7 hY,
    div400_closed ry q c qc b1 b2 b3 b4 b5 b6 b7 hY]
  simp only [leap_structure ry q c qc b1 b2 b3 b4 b5 b6 b7 hY]
  rcases eq_or_ne ry 0 with hry | hry
  · rcases eq_or_ne q 0 with hq | hq
    · rcases eq_or_ne c 0 with hc | hc
      · rw [if_pos (⟨hry, Or.inr hc⟩ : ry = 0 ∧ (q ≠ 0 ∨ c = 0)), if_pos hry,
          if_pos (⟨hry, hq⟩ : ry = 0 ∧ q = 0), if_pos (⟨hry, hq, hc⟩ : ry = 0 ∧ q = 0 ∧ c = 0)]
        omega
      · rw [if_neg (fun hh : ry = 0 ∧ (q ≠ 0 ∨ c = 0) => hh.2.elim (fun h2 => h2 hq) hc),
          if_pos hry, if_pos (⟨hry, hq⟩ : ry = 0 ∧ q = 0),
          if_neg (fun hh : ry = 0 ∧ q = 0 ∧ c = 0 => hc hh.2.2)]
        omega
    · rw [if_pos (⟨hry, Or.inl hq⟩ : ry = 0 ∧ (q ≠ 0 ∨ c = 0)), if_pos hry,
        if_neg (fun hh : ry = 0 ∧ q = 0 => hq hh.2),
        if_neg (fun hh : ry = 0 ∧ q = 0 ∧ c = 0 => hq hh.2.1)]
      omega
  · rw [if_neg (fun hh : ry = 0 ∧ (q ≠ 0 ∨ c = 0) => hry hh.1), if_neg hry,
      if_neg (fun hh : ry = 0 ∧ q = 0 => hry hh.1),
      if_neg (fun hh : ry = 0 ∧ q = 0 ∧ c = 0 => hry hh.1)]
    omega

theorem rtLeaf_m10 (D : Nat) (qc rem c q ry r4 : Int)
    (hrep : (D : Int) - 11017 = 146097 * qc + rem)
    (h0 : 0 ≤ rem) (h1 : rem < 146097)
    (hcL : (36524 * c ≤ rem ∧ rem < 36524 * (c + 1)) ∨ (c = 3 ∧ rem = 146096))
    (hqL : 1461 * q ≤ rem - c * 36524 ∧ rem - c * 36524 < 1461 * (q + 1))
    (hryL : (365 * ry ≤ rem - c * 36524 - q * 1461 ∧
      rem - c * 36524 - q * 1461 < 365 * (ry + 1)) ∨
      (ry = 3 ∧ rem - c * 36524 - q * 1461 = 1460))
    (b1 : 0 ≤ ry) (b2 : ry ≤ 3) (b3 : 0 ≤ q) (b4 : q ≤ 24) (b5 : 0 ≤ c) (b6 : c ≤ 3)
    (b7 : -1 ≤ qc)
    (hY : (1969 : Int) ≤ 2000 + ry + 4 * q + 100 * c + 400 * qc)
    (hr4 : r4 = rem - c * 36524 - q * 1461 - ry * 365)
    (h : 275 ≤ r4 ∧ r4 < 306) :
    daysFromCivil (2000 + ry + 4 * q + 100 * c + 400 * qc).toNat 12 (r4 - 275 + 1).toNat = D ∧ 1970 ≤ (2000 + ry + 4 * q + 100 * c + 400 * qc).toNat := by
  norm_num [daysFromCivil, monthYdays]
  rw [div4_closed ry q c qc b1 b2 b3 b4 b5 b6 b7 hY,
    div100_closed ry q c qc b1 b2 b3 b4 b5 b6 b7 hY,
    div400_closed ry q c qc b1 b2 b3 b4 b5 b6 b7 hY]
  simp only [leap_structure ry q c qc b1 b2 b3 b4 b5 b6 b7 hY]
  rcases eq_or_ne ry 0 with hry | hry
  · rcases eq_or_ne q 0 with hq | hq
    · rcases eq_or_ne c 0 with hc | hc
      · rw [if_pos (⟨hry, Or.inr hc⟩ : ry = 0 ∧ (q ≠ 0 ∨ c = 0)), if_pos hry,
          if_pos (⟨hry, hq⟩ : ry = 0 ∧ q = 0), if_pos (⟨hry, hq, hc⟩ : ry = 0 ∧ q = 0 ∧ c = 0)]
        omega
      · rw [if_neg (fun hh : ry = 0 ∧ (q ≠ 0 ∨ c = 0) => hh.2.elim (fun h2 => h2 hq) hc),
          if_pos hry, if_pos (⟨hry, hq⟩ : ry = 0 ∧ q = 0),
          if_neg (fun hh : ry = 0 ∧ q = 0 ∧ c = 0 => hc hh.2.2)]
        omega
    · rw [if_pos (⟨hry, Or.inl hq⟩ : ry = 0 ∧ (q ≠ 0 ∨ c = 0)), if_pos hry,
        if_neg (fun hh : ry = 0 ∧ q = 0 => hq hh.2),
        if_neg (fun hh : ry = 0 ∧ q = 0 ∧ c = 0 => hq hh.2.1)]
      omega
  · rw [if_neg (fun hh : ry = 0 ∧ (q ≠ 0 ∨ c = 0) => hry hh.1), if_neg hry,
      if_neg (fun hh : ry = 0 ∧ q = 0 => hry hh.1),
      if_neg (fun hh : ry = 0 ∧ q = 0 ∧ c = 0 => hry hh.1)]
    omega

theorem rtLeaf_m11 (D : Nat) (qc rem c q ry r4 : Int)
    (hrep : (D : Int) - 11017 = 146097 * qc + rem)
    (h0 : 0 ≤ rem) (h1 : rem < 146097)
    (hcL : (36524 * c ≤ rem ∧ rem < 36524 * (c + 1)) ∨ (c = 3 ∧ rem = 146096))
    (hqL : 1461 * q ≤ rem - c * 36524 ∧ rem - c * 36524 < 1461 * (q + 1))
    (hryL : (365 * ry ≤ rem - c * 36524 - q * 1461 ∧
      rem - c * 36524 - q * 1461 < 365 * (ry + 1)) ∨
      (ry = 3 ∧ rem - c * 36524 - q * 1461 = 1460))
    (b1 : 0 ≤ ry) (b2 : ry ≤ 3) (b3 : 0 ≤ q) (b4 : q ≤ 24) (b5 : 0 ≤ c) (b6 : c ≤ 3)
    (b7 : -1 ≤ qc)
    (hY : (1969 : Int) ≤ 2000 + ry + 4 * q + 100 * c + 400 * qc)
    (hr4 : r4 = rem - c * 36524 - q * 1461 - ry * 365)
    (h : 306 ≤ r4 ∧ r4 < 337) :
    daysFromCivil (2000 + ry + 4 * q + 100 * c + 400 * qc + 1).toNat 1 (r4 - 306 + 1).toNat = D ∧ 1970 ≤ (2000 + ry + 4 * q + 100 * c + 400 * qc + 1).toNat := by
  norm_num [daysFromCivil, monthYdays]
  rw [div4_jf ry q c qc b1 b2 b3 b4 b5 b6 b7 hY,
    div100_jf ry q c qc b1 b2 b3 b4 b5 b6 b7 hY,
    div400_jf ry q c qc b1 b2 b3 b4 b5 b6 b7 hY]
  omega

theorem rtLeaf_m12 (D : Nat) (qc rem c q ry r4 : Int)
    (hrep : (D : Int) - 11017 = 146097 * qc + rem)
    (h0 : 0 ≤ rem) (h1 : rem < 146097)
    (hcL : (36524 * c ≤ rem ∧ rem < 36524 * (c + 1)) ∨ (c = 3 ∧ rem = 146096))
    (hqL : 1461 * q ≤ rem - c * 36524 ∧ rem - c * 36524 < 1461 * (q + 1))
    (hryL : (365 * ry ≤ rem - c * 36524 - q * 1461 ∧
      rem - c * 36524 - q * 1461 < 365 * (ry + 1)) ∨
      (ry = 3 ∧ rem - c * 36524 - q * 1461 = 1460))
    (b1 : 0 ≤ ry) (b2 : ry ≤ 3) (b3 : 0 ≤ q) (b4 : q ≤ 24) (b5 : 0 ≤ c) (b6 : c ≤ 3)
    (b7 : -1 ≤ qc)
    (hY : (1969 : Int) ≤ 2000 + ry + 4 * q + 100 * c + 400 * qc)
    (hr4 : r4 = rem - c * 36524 - q * 1461 - ry * 365)
    (h : 337 ≤ r4 ∧ r4 ≤ 365) :
    daysFromCivil (2000 + ry + 4 * q + 100 * c + 400 * qc + 1).toNat 2 (r4 - 337 + 1).toNat = D ∧ 1970 ≤ (2000 + ry + 4 * q + 100 * c + 400 * qc + 1).toNat := by
  norm_num [daysFromCivil, monthYdays]
  rw [div4_jf ry q c qc b1 b2 b3 b4 b5 b6 b7 hY,
    div100_jf ry q c qc b1 b2 b3 b4 b5 b6 b7 hY,
    div400_jf ry q c qc b1 b2 b3 b4 b5 b6 b7 hY]
  omega

/-! ### Day-level round trip: calendar-of-day then days-of-calendar is the identity -/

set_option maxHeartbeats 2000000 in
theorem rt_day (D : Nat) :
    daysFromCivil (civilFromDays D).1 (civilFromDays D).2.1 (civilFromDays D).2.2 = D ∧
    1970 ≤ (civilFromDays D).1 := by
  have e : civilFromDays D =
      civilFromRem (((D : Int) - 11017) / 146097) (((D : Int) - 11017) % 146097) := by
    simp only [civilFromDays, LEAPOCH]
    rw [qcRem_eq _ (by omega)]
  obtain ⟨qc, rem, hrep, h0, h1, hc⟩ :
      ∃ qc rem : Int, ((D : Int) - 11017 = 146097 * qc + rem) ∧ 0 ≤ rem ∧
        rem < 146097 ∧ civilFromDays D = civilFromRem qc rem :=
    ⟨_, _, by omega, by omega, by omega, e⟩
  rw [hc]
  clear e hc
  have hB1 : DAYS_PER_100Y = (36524 : Int) := by norm_num [DAYS_PER_100Y]
  have hB2 : DAYS_PER_4Y = (1461 : Int) := by norm_num [DAYS_PER_4Y]
  simp only [civilFromRem, hB1, hB2]
  obtain ⟨c, hcEq, hcFact⟩ := cappedDiv_spec rem 36524 4 h0 (by norm_num)
  rw [hcEq]
  obtain ⟨q, hqEq, hqFact⟩ := cappedDiv_spec (rem - c * 36524) 1461 25 (by omega) (by norm_num)
  rw [hqEq]
  obtain ⟨ry, hryEq, hryFact⟩ :=
    cappedDiv_spec (rem - c * 36524 - q * 1461) 365 4 (by omega) (by norm_num)
  rw [hryEq]
  clear hcEq hqEq hryEq
  obtain ⟨b1, b2, b3, b4, b5, b6, b7⟩ :
      0 ≤ ry ∧ ry ≤ 3 ∧ 0 ≤ q ∧ q ≤ 24 ∧ 0 ≤ c ∧ c ≤ 3 ∧ -1 ≤ qc := by omega
  have hY : (1969 : Int) ≤ 2000 + ry + 4 * q + 100 * c + 400 * qc := by omega
  have hcL : (36524 * c ≤ rem ∧ rem < 36524 * (c + 1)) ∨ (c = 3 ∧ rem = 146096) := by
    omega
  have hqL : 1461 * q ≤ rem - c * 36524 ∧ rem - c * 36524 < 1461 * (q + 1) := by
    omega
  have hryL : (365 * ry ≤ rem - c * 36524 - q * 1461 ∧
      rem - c * 36524 - q * 1461 < 365 * (ry + 1)) ∨
      (ry = 3 ∧ rem - c * 36524 - q * 1461 = 1460) := by
    omega
  clear hcFact hqFact hryFact
  set r4 : Int := rem - c * 36524 - q * 1461 - ry * 365 with hr4
  have h12 : (0 ≤ r4 ∧ r4 < 31) ∨ (31 ≤ r4 ∧ r4 < 61) ∨ (61 ≤ r4 ∧ r4 < 92) ∨
      (92 ≤ r4 ∧ r4 < 122) ∨ (122 ≤ r4 ∧ r4 < 153) ∨ (153 ≤ r4 ∧ r4 < 184) ∨
      (184 ≤ r4 ∧ r4 < 214) ∨ (214 ≤ r4 ∧ r4 < 245) ∨ (245 ≤ r4 ∧ r4 < 275) ∨
      (275 ≤ r4 ∧ r4 < 306) ∨ (306 ≤ r4 ∧ r4 < 337) ∨ (337 ≤ r4 ∧ r4 ≤ 365) := by
    omega
  rcases h12 with h|h|h|h|h|h|h|h|h|h|h|h
  · rw [monthLoop_m1 r4 h.1 h.2]
    exact rtLeaf_m1 D qc rem c q ry r4 hrep h0 h1 hcL hqL hryL b1 b2 b3 b4 b5 b6 b7 hY hr4 h
  · rw [monthLoop_m2 r4 h.1 h.2]
    exact rtLeaf_m2 D qc rem c q ry r4 hrep h0 h1 hcL hqL hryL b1 b2 b3 b4 b5 b6 b7 hY hr4 h
  · rw [monthLoop_m3 r4 h.1 h.2]
    exact rtLeaf_m3 D qc rem c q ry r4 hrep h0 h1 hcL hqL hryL b1 b2 b3 b4 b5 b6 b7 hY hr4 h
  · rw [monthLoop_m4 r4 h.1 h.2]
    exact rtLeaf_m4 D qc rem c q ry r4 hrep h0 h1 hcL hqL hryL b1 b2 b3 b4 b5 b6 b7 hY hr4 h
  · rw [monthLoop_m5 r4 h.1 h.2]
    exact rtLeaf_m5 D qc rem c q ry r4 hrep h0 h1 hcL hqL hryL b1 b2 b3 b4 b5 b6 b7 hY hr4 h
  · rw [monthLoop_m6 r4 h.1 h.2]
    exact rtLeaf_m6 D qc rem c q ry r4 hrep h0 h1 hcL hqL hryL b1 b2 b3 b4 b5 b6 b7 hY hr4 h
  · rw [monthLoop_m7 r4 h.1 h.2]
    exact rtLeaf_m7 D qc rem c q ry r4 hrep h0 h1 hcL hqL hryL b1 b2 b3 b4 b5 b6 b7 hY hr4 h
  · rw [monthLoop_m8 r4 h.1 h.2]
    exact rtLeaf_m8 D qc rem c q ry r4 hrep h0 h1 hcL hqL hryL b1 b2 b3 b4 b5 b6 b7 hY hr4 h
  · rw [monthLoop_m9 r4 h.1 h.2]
    exact rtLeaf_m9 D qc rem c q ry r4 hrep h0 h1 hcL hqL hryL b1 b2 b3 b4 b5 b6 b7 hY hr4 h
  · rw [monthLoop_m10 r4 h.1 h.2]
    exact rtLeaf_m10 D qc rem c q ry r4 hrep h0 h1 hcL hqL hryL b1 b2 b3 b4 b5 b6 b7 hY hr4 h
  · rw [monthLoop_m11 r4 h.1 h.2]
    exact rtLeaf_m11 D qc rem c q ry r4 hrep h0 h1 hcL hqL hryL b1 b2 b3 b4 b5 b6 b7 hY hr4 h
  · rw [monthLoop_m12 r4 h.1 h.2]
    exact rtLeaf_m12 D qc rem c q ry r4 hrep h0 h1 hcL hqL hryL b1 b2 b3 b4 b5 b6 b7 hY hr4 h

/-! ### Weekday characterisation -/

/-- The weekday formula as the spec's words state it: `(3 + dse) mod 7`
normalized to `[1,7]` (`0` becomes `7`), where `dse` is the count of whole
days since 1970-01-01. -/
def claimedWday (dse : Nat) : Nat :=
  if (3 + dse) % 7 = 0 then 7 else (3 + dse) % 7

/-- The weekday formula the code actually computes, expressed over days
since the epoch: `(4 + dse) mod 7` normalized to `[1,7]` (`0` becomes `7`).
Equals `(3 + (dse - 11017)) mod 7` normalized, since `11017 ≡ 6 (mod 7)`. -/
def actualWday (dse : Nat) : Nat :=
  if (4 + dse) % 7 = 0 then 7 else (4 + dse) % 7

theorem wdayFromDays_eq (D : Nat) : wdayFromDays D = actualWday D := by
  simp only [wdayFromDays, LEAPOCH, actualWday]
  rcases le_or_lt 11014 D with hD | hD
  · have hx : (0 : Int) ≤ 3 + ((D : Int) - 11017) := by omega
    rw [Int.tmod_eq_emod hx (by norm_num)]
    split_ifs <;> omega
  · have hx : 3 + ((D : Int) - 11017) < 0 := by omega
    have h2 : (-(3 + ((D : Int) - 11017))).tdiv 7 = -((3 + ((D : Int) - 11017)).tdiv 7) :=
      Int.neg_tdiv _ 7
    have h3 : (-(3 + ((D : Int) - 11017))).tdiv 7 = (-(3 + ((D : Int) - 11017))) / 7 :=
      Int.tdiv_eq_ediv (by omega) (by norm_num)
    have h1 := Int.tmod_add_tdiv (3 + ((D : Int) - 11017)) 7
    split_ifs <;> omega

/-! ### The instant-level round trip (claim C1 machinery) -/

theorem timeOfDay_recompose (R : Nat) (h : R < 86400) :
    R % 60 + R % 3600 / 60 * 60 + R / 3600 * 3600 = R := by
  omega

/-- Under `is_valid`'s range checks the implied instant stays below the
year-10000 panic guard of `From<SystemTime>`, so `is_valid`'s round-trip
conjunct never reaches the source's `panic!`. -/
theorem secs_valid_lt (v : LogDate) (h1 : v.sec < 60) (h2 : v.min < 60)
    (h3 : v.hour < 24) (h5 : v.day < 32) (h7 : v.mon ≤ 12)
    (h9 : v.year ≤ 9999) : secsFromLogDate v < 253402300800 := by
  have hm : monthYdays v.mon ≤ 334 := by
    rcases v with ⟨nano, sec, min, hour, day, mon, year, wday⟩
    simp only at h7 ⊢
    interval_cases mon <;> simp [monthYdays]
  simp only [secsFromLogDate, daysFromCivil]
  split_ifs with hL
  · have h98 : v.year ≤ 9998 := by
      rcases eq_or_lt_of_le h9 with h | h
      · exfalso
        have := hL.1
        rw [h] at this
        exact absurd this (by decide)
      · omega
    omega
  · omega

theorem secs_valid_lt_witness :
    ((⟨0, 0, 0, 0, 29, 2, 2000, 2⟩ : LogDate).sec < 60 ∧
     (⟨0, 0, 0, 0, 29, 2, 2000, 2⟩ : LogDate).min < 60 ∧
     (⟨0, 0, 0, 0, 29, 2, 2000, 2⟩ : LogDate).hour < 24 ∧
     (⟨0, 0, 0, 0, 29, 2, 2000, 2⟩ : LogDate).day < 32 ∧
     (⟨0, 0, 0, 0, 29, 2, 2000, 2⟩ : LogDate).mon ≤ 12 ∧
     (⟨0, 0, 0, 0, 29, 2, 2000, 2⟩ : LogDate).year ≤ 9999) ∧
    secsFromLogDate ⟨0, 0, 0, 0, 29, 2, 2000, 2⟩ < 253402300800 :=
  ⟨by decide, secs_valid_lt _ (by decide) (by decide) (by decide) (by decide)
    (by decide) (by decide)⟩

/-- Claim C1: for every whole-second epoch instant with seconds in
`[0, 253402300800)` and zero nanosecond remainder, `From<SystemTime>`
succeeds (no panic) and converting the resulting `LogDate` back through
`From<LogDate> for SystemTime` yields the identical instant, including the
(zero) nanosecond remainder. -/
theorem claim_C1 (secs : Nat) (h : secs < 253402300800) :
    fromSystemTime secs 0 = some (logDateFromInstant secs 0) ∧
    systemTimeFromLogDate (logDateFromInstant secs 0) = (secs, 0) := by
  constructor
  · simp only [fromSystemTime]
    rw [if_neg (by omega)]
  · have hd := (rt_day (secs / 86400)).1
    simp only [systemTimeFromLogDate, secsFromLogDate, logDateFromInstant]
    rw [hd]
    simp only [Prod.mk.injEq]
    constructor
    · omega
    · trivial

theorem claim_C1_witness :
    (1234567890 : Nat) < 253402300800 ∧
    (fromSystemTime 1234567890 0 = some (logDateFromInstant 1234567890 0) ∧
     systemTimeFromLogDate (logDateFromInstant 1234567890 0) = (1234567890, 0)) :=
  ⟨by norm_num, claim_C1 1234567890 (by norm_num)⟩

/-- Claim C3, counterexample: the claim's weekday formula
`(3 + days_since_epoch) mod 7` normalized to `[1,7]` does not match the
weekday field the conversion computes.  At the instant `0`
(1970-01-01, day 0 since the epoch) the field is `4` (Thursday, as the
claim itself says) while the claim's formula yields `3`. -/
theorem claim_C3_counterexample :
    (logDateFromInstant 0 0).wday ≠ claimedWday (0 / 86400) := by decide

/-- Claim C3 (amended): the weekday field produced by the conversion
equals `(4 + days_since_epoch) mod 7` normalized to the range `[1,7]`
(`0` becomes `7`) — equivalently `(3 + (days_since_epoch - 11017)) mod 7`
normalized, as the code computes — and in particular day 0 of the epoch,
1970-01-01, is assigned Thursday (`wday = 4`). -/
theorem claim_C3_amended :
    (∀ secs nanos : Nat, (logDateFromInstant secs nanos).wday = actualWday (secs / 86400)) ∧
    (logDateFromInstant 0 0).wday = 4 := by
  constructor
  · intro secs nanos
    simp only [logDateFromInstant]
    exact wdayFromDays_eq _
  · decide

/-- Claim C8: `From<SystemTime>` returns a value exactly for the instants
with whole-second count below `253402300800`; at or beyond that bound it
halts (`panic!`, modelled as `none`) instead of returning a value. -/
theorem claim_C8 (secs nanos : Nat) :
    ((fromSystemTime secs nanos).isSome ↔ secs < 253402300800) ∧
    (secs ≥ 253402300800 → fromSystemTime secs nanos = none) := by
  by_cases h : secs ≥ 253402300800 <;>
    simp [fromSystemTime, h] <;> omega

/-- Claim C2: `is_valid` returns `true` iff the fields pass the stated
range checks and converting to the implied instant and back yields a
field-for-field identical value. -/
theorem claim_C2 (v : LogDate) :
    v.is_valid = true ↔
      (v.sec < 60 ∧ v.min < 60 ∧ v.hour < 24 ∧ 0 < v.day ∧ v.day < 32 ∧
       0 < v.mon ∧ v.mon ≤ 12 ∧ 1970 ≤ v.year ∧ v.year ≤ 9999 ∧
       logDateFromInstant (secsFromLogDate v) 0 = v) := by
  simp only [LogDate.is_valid, Bool.and_eq_true, decide_eq_true_eq, beq_iff_eq]
  tauto

/-! ### The three grammar parsers (`date.rs` lines 163-447) -/

/-- ASCII bytes of a string literal (inputs are pure ASCII, checked by
`from_str` before any parser runs, so chars and bytes coincide). -/
def strBytes (s : String) : List Nat :=
  s.toList.map Char.toNat

/-- `toint_1` (`date.rs` lines 271-278): `x.wrapping_sub(b'0')` on `u8`,
accepted iff the result is below 10. -/
def toint_1 (x : Nat) : Option Nat :=
  let result := (x + 256 - 48) % 256
  if result < 10 then some result else none

/-- `toint_2` (`date.rs` lines 280-289) on the two bytes of the slice. -/
def toint_2 (a b : Nat) : Option Nat :=
  let high := (a + 256 - 48) % 256
  let low := (b + 256 - 48) % 256
  if high < 10 ∧ low < 10 then some (high * 10 + low) else none

/-- `toint_4` (`date.rs` lines 291-303) on the four bytes of the slice. -/
def toint_4 (a b c d : Nat) : Option Nat :=
  let a' := (a + 256 - 48) % 256
  let b' := (b + 256 - 48) % 256
  let c' := (c + 256 - 48) % 256
  let d' := (d + 256 - 48) % 256
  if a' < 10 ∧ b' < 10 ∧ c' < 10 ∧ d' < 10 then
    some (a' * 1000 + b' * 100 + c' * 10 + d')
  else none

/-- The `&s[7..12]` month table of `parse_imf_fixdate` (lines 316-330). -/
def fixMonth (l : List Nat) : Option Nat :=
  if l = strBytes " Jan " then some 1
  else if l = strBytes " Feb " then some 2
  else if l = strBytes " Mar " then some 3
  else if l = strBytes " Apr " then some 4
  else if l = strBytes " May " then some 5
  else if l = strBytes " Jun " then some 6
  else if l = strBytes " Jul " then some 7
  else if l = strBytes " Aug " then some 8
  else if l = strBytes " Sep " then some 9
  else if l = strBytes " Oct " then some 10
  else if l = strBytes " Nov " then some 11
  else if l = strBytes " Dec " then some 12
  else none

/-- The `&s[..5]` weekday table of `parse_imf_fixdate` (lines 332-341). -/
def fixWday (l : List Nat) : Option Nat :=
  if l = strBytes "Mon, " then some 1
  else if l = strBytes "Tue, " then some 2
  else if l = strBytes "Wed, " then some 3
  else if l = strBytes "Thu, " then some 4
  else if l = strBytes "Fri, " then some 5
  else if l = strBytes "Sat, " then some 6
  else if l = strBytes "Sun, " then some 7
  else none

/-- `parse_imf_fixdate` (`date.rs` lines 305-343): exact length 29, fixed
delimiter bytes, then the fixed-offset fields.  The length check is the
29-element pattern match. -/
def parse_imf_fixdate (s : List Nat) : Option LogDate :=
  match s with
  | b0 :: b1 :: b2 :: b3 :: b4 :: b5 :: b6 :: b7 :: b8 :: b9 :: b10 :: b11 ::
      b12 :: b13 :: b14 :: b15 :: b16 :: b17 :: b18 :: b19 :: b20 :: b21 ::
      b22 :: b23 :: b24 :: b25 :: b26 :: b27 :: b28 :: [] =>
    if [b25, b26, b27, b28] ≠ strBytes " GMT" ∨ b16 ≠ 32 ∨ b19 ≠ 58 ∨ b22 ≠ 58 then
      none
    else do
      let sec ← toint_2 b23 b24
      let min ← toint_2 b20 b21
      let hour ← toint_2 b17 b18
      let day ← toint_2 b5 b6
      let mon ← fixMonth [b7, b8, b9, b10, b11]
      let year ← toint_4 b12 b13 b14 b15
      let wday ← fixWday [b0, b1, b2, b3, b4]
      pure ⟨0, sec, min, hour, day, mon, year, wday⟩
  | _ => none

/-- The inner `wday` prefix helper of `parse_rfc850_date` (lines 351-356):
`&s[0..name.len()] == name` succeeds with the weekday number and the rest.
(The source's slice cannot go out of bounds: `s.len() >= 23` is checked
before any call and every name is shorter; a too-short `s` here simply
fails to match.) -/
def rfcWdayPre (s : List Nat) (w : Nat) (name : List Nat) : Option (Nat × List Nat) :=
  if s.take name.length = name then some (w, s.drop name.length) else none

/-- The `&s[2..7]` month table of `parse_rfc850_date` (lines 380-394). -/
def rfcMonth (l : List Nat) : Option Nat :=
  if l = strBytes "-Jan-" then some 1
  else if l = strBytes "-Feb-" then some 2
  else if l = strBytes "-Mar-" then some 3
  else if l = strBytes "-Apr-" then some 4
  else if l = strBytes "-May-" then some 5
  else if l = strBytes "-Jun-" then some 6
  else if l = strBytes "-Jul-" then some 7
  else if l = strBytes "-Aug-" then some 8
  else if l = strBytes "-Sep-" then some 9
  else if l = strBytes "-Oct-" then some 10
  else if l = strBytes "-Nov-" then some 11
  else if l = strBytes "-Dec-" then some 12
  else none

/-- `parse_rfc850_date` (`date.rs` lines 345-398): length at least 23,
longest of seven full weekday names stripped in the source's fixed order,
then an exactly-22-byte remainder with fixed delimiters, with the
two-digit year pivoted at 70 (`< 70` maps to `2000+yy`, otherwise
`1900+yy`). -/
def parse_rfc850_date (s : List Nat) : Option LogDate :=
  if s.length < 23 then none
  else
    match (rfcWdayPre s 1 (strBytes "Monday, ")) <|>
        (rfcWdayPre s 2 (strBytes "Tuesday, ")) <|>
        (rfcWdayPre s 3 (strBytes "Wednesday, ")) <|>
        (rfcWdayPre s 4 (strBytes "Thursday, ")) <|>
        (rfcWdayPre s 5 (strBytes "Friday, ")) <|>
        (rfcWdayPre s 6 (strBytes "Saturday, ")) <|>
        (rfcWdayPre s 7 (strBytes "Sunday, ")) with
    | none => none
    | some (wday, rest) =>
      match rest with
      | c0 :: c1 :: c2 :: c3 :: c4 :: c5 :: c6 :: c7 :: c8 :: c9 :: c10 :: c11 ::
          c12 :: c13 :: c14 :: c15 :: c16 :: c17 :: c18 :: c19 :: c20 :: c21 :: [] =>
        if c12 ≠ 58 ∨ c15 ≠ 58 ∨ [c18, c19, c20, c21] ≠ strBytes " GMT" then none
        else do
          let yy ← toint_2 c7 c8
          let year := if yy < 70 then yy + 2000 else yy + 1900
          let sec ← toint_2 c16 c17
          let min ← toint_2 c13 c14
          let hour ← toint_2 c10 c11
          let day ← toint_2 c0 c1
          let mon ← rfcMonth [c2, c3, c4, c5, c6]
          pure ⟨0, sec, min, hour, day, mon, year, wday⟩
      | _ => none

/-- The `&s[0..4]` weekday table of `parse_asctime` (lines 436-445). -/
def ascWday (l : List Nat) : Option Nat :=
  if l = strBytes "Mon " then some 1
  else if l = strBytes "Tue " then some 2
  else if l = strBytes "Wed " then some 3
  else if l = strBytes "Thu " then some 4
  else if l = strBytes "Fri " then some 5
  else if l = strBytes "Sat " then some 6
  else if l = strBytes "Sun " then some 7
  else none

/-- The `&s[4..8]` month table of `parse_asctime` (lines 420-434). -/
def ascMonth (l : List Nat) : Option Nat :=
  if l = strBytes "Jan " then some 1
  else if l = strBytes "Feb " then some 2
  else if l = strBytes "Mar " then some 3
  else if l = strBytes "Apr " then some 4
  else if l = strBytes "May " then some 5
  else if l = strBytes "Jun " then some 6
  else if l = strBytes "Jul " then some 7
  else if l = strBytes "Aug " then some 8
  else if l = strBytes "Sep " then some 9
  else if l = strBytes "Oct " then some 10
  else if l = strBytes "Nov " then some 11
  else if l = strBytes "Dec " then some 12
  else none

/-- `parse_asctime` (`date.rs` lines 400-447): exact length 24, fixed
delimiters, day-of-month either space-padded single digit (`toint_1` of
the units byte when the tens byte is a space) or two digits. -/
def parse_asctime (s : List Nat) : Option LogDate :=
  match s with
  | b0 :: b1 :: b2 :: b3 :: b4 :: b5 :: b6 :: b7 :: b8 :: b9 :: b10 :: b11 ::
      b12 :: b13 :: b14 :: b15 :: b16 :: b17 :: b18 :: b19 :: b20 :: b21 ::
      b22 :: b23 :: [] =>
    if b10 ≠ 32 ∨ b13 ≠ 58 ∨ b16 ≠ 58 ∨ b19 ≠ 32 then none
    else do
      let sec ← toint_2 b17 b18
      let min ← toint_2 b14 b15
      let hour ← toint_2 b11 b12
      let day ← if b8 = 32 then toint_1 b9 else toint_2 b8 b9
      let mon ← ascMonth [b4, b5, b6, b7]
      let year ← toint_4 b20 b21 b22 b23
      let wday ← ascWday [b0, b1, b2, b3]
      pure ⟨0, sec, min, hour, day, mon, year, wday⟩
  | _ => none

/-- Rust's `str::trim` restricted to ASCII input (the only input that
reaches it in `from_str`, which rejects non-ASCII first): strips leading
and trailing ASCII whitespace bytes (0x09-0x0D and 0x20, the ASCII part of
Unicode White_Space). -/
def isWsByte (b : Nat) : Bool :=
  b == 32 || b == 9 || b == 10 || b == 11 || b == 12 || b == 13

/-- Leading/trailing whitespace trim on the byte list (`s.trim()` of
`date.rs` line 170). -/
def trimBytes (l : List Nat) : List Nat :=
  ((l.dropWhile isWsByte).reverse.dropWhile isWsByte).reverse

/-- `FromStr for LogDate` (`date.rs` lines 163-179): reject non-ASCII,
trim, try the three grammars in order, then require `is_valid`. -/
def from_str (s : String) : Option LogDate :=
  if ¬ (s.toList.all fun c => c.toNat < 128) then none
  else
    let x := trimBytes (s.toList.map Char.toNat)
    match (parse_imf_fixdate x) <|> (parse_rfc850_date x) <|> (parse_asctime x) with
    | none => none
    | some date => if date.is_valid then some date else none

/-- `Ord for LogDate` (`date.rs` lines 259-263): compare the instants
produced by `From<LogDate> for SystemTime`. -/
def cmpLogDate (a b : LogDate) : Ordering :=
  compare (secsFromLogDate a) (secsFromLogDate b)

-- sanity: the fixdate example of the source comment parses
example : parse_imf_fixdate (strBytes "Sun, 06 Nov 1994 08:49:37 GMT") =
    some ⟨0, 37, 49, 8, 6, 11, 1994, 7⟩ := by decide

/-- Claim C4: the three literal strings in the three grammars parse
successfully, the resulting values compare equal under the instant-based
total order, and each has `year=1994, mon=11, day=6, hour=8, min=49,
sec=37, wday=7`. -/
theorem claim_C4 :
    from_str "Sun, 06 Nov 1994 08:49:37 GMT" = some ⟨0, 37, 49, 8, 6, 11, 1994, 7⟩ ∧
    from_str "Sunday, 06-Nov-94 08:49:37 GMT" = some ⟨0, 37, 49, 8, 6, 11, 1994, 7⟩ ∧
    from_str "Sun Nov  6 08:49:37 1994" = some ⟨0, 37, 49, 8, 6, 11, 1994, 7⟩ ∧
    cmpLogDate ⟨0, 37, 49, 8, 6, 11, 1994, 7⟩ ⟨0, 37, 49, 8, 6, 11, 1994, 7⟩ = Ordering.eq := by
  decide

/-- Claim C5: `"Mon, 06 Nov 1994 08:49:37 GMT"` is rejected by `from_str`:
the fixdate grammar matches it syntactically (producing the candidate with
`wday = 1`), but the validity round trip re-derives `wday = 7` (1994-11-06
is a Sunday), so `is_valid` fails and the parse returns an error. -/
theorem claim_C5 :
    from_str "Mon, 06 Nov 1994 08:49:37 GMT" = none ∧
    parse_imf_fixdate (trimBytes (strBytes "Mon, 06 Nov 1994 08:49:37 GMT")) =
      some ⟨0, 37, 49, 8, 6, 11, 1994, 1⟩ ∧
    LogDate.is_valid ⟨0, 37, 49, 8, 6, 11, 1994, 1⟩ = false ∧
    (logDateFromInstant (secsFromLogDate ⟨0, 37, 49, 8, 6, 11, 1994, 1⟩) 0).wday = 7 := by
  decide

/-- Claim C6: the validity check rejects `mon=13`, April 31, 1900-02-29
(year below 1970 and not a leap year), `hour=24` and `sec=60`, and accepts
February 29 of 2000 and of 2004. -/
theorem claim_C6 :
    LogDate.is_valid ⟨0, 0, 0, 0, 1, 13, 2000, 6⟩ = false ∧
    LogDate.is_valid ⟨0, 0, 0, 0, 31, 4, 2000, 1⟩ = false ∧
    LogDate.is_valid ⟨0, 0, 0, 0, 29, 2, 1900, 4⟩ = false ∧
    LogDate.is_valid ⟨0, 0, 0, 24, 1, 1, 2000, 6⟩ = false ∧
    LogDate.is_valid ⟨0, 60, 0, 0, 1, 1, 2000, 6⟩ = false ∧
    LogDate.is_valid ⟨0, 0, 0, 0, 29, 2, 2000, 2⟩ = true ∧
    LogDate.is_valid ⟨0, 0, 0, 0, 29, 2, 2004, 7⟩ = true := by
  decide

/-- Claim C7: in the rfc850 grammar the two-digit year token `yy` maps to
`2000+yy` when `yy < 70` and to `1900+yy` otherwise, for every `yy` in
`[0, 99]` — the pivot is the fixed constant 70. -/
theorem claim_C7 : ∀ yy : Nat, yy < 100 →
    parse_rfc850_date (strBytes "Sunday, 06-Nov-" ++ [48 + yy / 10, 48 + yy % 10] ++
        strBytes " 08:49:37 GMT") =
      some ⟨0, 37, 49, 8, 6, 11, if yy < 70 then yy + 2000 else yy + 1900, 7⟩ := by
  decide

theorem claim_C7_witness :
    (69 : Nat) < 100 ∧
    parse_rfc850_date (strBytes "Sunday, 06-Nov-" ++ [48 + 69 / 10, 48 + 69 % 10] ++
        strBytes " 08:49:37 GMT") =
      some ⟨0, 37, 49, 8, 6, 11, if (69 : Nat) < 70 then 69 + 2000 else 69 + 1900, 7⟩ :=
  ⟨by decide, claim_C7 69 (by decide)⟩

/-- Claim C10: every value accepted by `is_valid` has `nano = 0` (the
calendar-to-instant direction discards the nano field, so the re-derived
value always carries `nano = 0` and field-for-field equality forces it);
consequently a conversion result with nonzero nanosecond remainder never
passes `is_valid`, while every `from_str` result (parser-produced, hence
`nano = 0`) does carry `nano = 0`. -/
theorem claim_C10 :
    (∀ v : LogDate, v.is_valid = true → v.nano = 0) ∧
    (∀ secs nanos : Nat, 0 < nanos → (logDateFromInstant secs nanos).is_valid = false) ∧
    (∀ (s : String) (d : LogDate), from_str s = some d → d.nano = 0) := by
  have key : ∀ v : LogDate, v.is_valid = true → v.nano = 0 := by
    intro v hv
    simp only [LogDate.is_valid, Bool.and_eq_true, decide_eq_true_eq, beq_iff_eq] at hv
    have h10 := hv.2
    have : (logDateFromInstant (secsFromLogDate v) 0).nano = v.nano := by rw [h10]
    simpa [logDateFromInstant] using this.symm
  refine ⟨key, ?_, ?_⟩
  · intro secs nanos hn
    by_contra hfalse
    have htrue : (logDateFromInstant secs nanos).is_valid = true := by
      cases h : (logDateFromInstant secs nanos).is_valid
      · exact absurd h hfalse
      · rfl
    have := key _ htrue
    simp [logDateFromInstant] at this
    omega
  · intro s d h
    unfold from_str at h
    split at h
    · exact absurd h (by simp)
    · dsimp only at h
      split at h
      · exact absurd h (by simp)
      · rename_i date hdate
        split at h
        · rename_i hval
          have hd : date = d := by
            simpa using h
          exact hd ▸ key date hval
        · exact absurd h (by simp)

theorem claim_C10_witness :
    (LogDate.is_valid ⟨0, 0, 0, 0, 29, 2, 2004, 7⟩ = true ∧
      (⟨0, 0, 0, 0, 29, 2, 2004, 7⟩ : LogDate).nano = 0) ∧
    (0 < 500 ∧ (logDateFromInstant 0 500).is_valid = false) ∧
    (from_str "Sun Nov  6 08:49:37 1994" = some ⟨0, 37, 49, 8, 6, 11, 1994, 7⟩ ∧
      (⟨0, 37, 49, 8, 6, 11, 1994, 7⟩ : LogDate).nano = 0) :=
  ⟨⟨by decide, claim_C10.1 ⟨0, 0, 0, 0, 29, 2, 2004, 7⟩ (by decide)⟩,
   ⟨by decide, claim_C10.2.1 0 500 (by decide)⟩,
   ⟨by decide, claim_C10.2.2 "Sun Nov  6 08:49:37 1994" ⟨0, 37, 49, 8, 6, 11, 1994, 7⟩ (by decide)⟩⟩

/-! ### The canonical formatter (`Display for LogDate`, `date.rs` lines 181-257) -/

/-- The nano field as `write!(f, "{:9}", nano)` renders it: the decimal
digits of the value, left-padded with spaces to a minimum width of 9. -/
def padNano (n : Nat) : String :=
  String.mk (List.replicate (9 - (Nat.repr n).length) ' ') ++ Nat.repr n

/-- `Display for LogDate` (`date.rs` lines 181-257): the 20-byte template
`"0000-00-00 00:00:00."` with the zero-padded fields written at the
source's fixed offsets (including the redundant rewrite of byte 19 with
`'.'`), then the space-padded nano field.  `48` is `b'0'`, `46` is
`b'.'`. -/
def formatLogDate (v : LogDate) : String :=
  let buf : List Nat := strBytes "0000-00-00 00:00:00."
  let buf := buf.set 0 (48 + v.year / 1000)
  let buf := buf.set 1 (48 + v.year / 100 % 10)
  let buf := buf.set 2 (48 + v.year / 10 % 10)
  let buf := buf.set 3 (48 + v.year % 10)
  let buf := buf.set 5 (48 + v.mon / 10)
  let buf := buf.set 6 (48 + v.mon % 10)
  let buf := buf.set 8 (48 + v.day / 10)
  let buf := buf.set 9 (48 + v.day % 10)
  let buf := buf.set 11 (48 + v.hour / 10)
  let buf := buf.set 12 (48 + v.hour % 10)
  let buf := buf.set 14 (48 + v.min / 10)
  let buf := buf.set 15 (48 + v.min % 10)
  let buf := buf.set 17 (48 + v.sec / 10)
  let buf := buf.set 18 (48 + v.sec % 10)
  let buf := buf.set 19 46
  String.mk (buf.map Char.ofNat) ++ padNano v.nano

/-- Spec-side description of the canonical layout (§4.5): the fixed ASCII
frame `YYYY-MM-DD HH:MM:SS.` with each numeric field zero-padded to its
width, followed by the space-padded nano field. -/
def canonicalLayout (v : LogDate) : String :=
  String.mk [Char.ofNat (48 + v.year / 1000), Char.ofNat (48 + v.year / 100 % 10),
    Char.ofNat (48 + v.year / 10 % 10), Char.ofNat (48 + v.year % 10), '-',
    Char.ofNat (48 + v.mon / 10), Char.ofNat (48 + v.mon % 10), '-',
    Char.ofNat (48 + v.day / 10), Char.ofNat (48 + v.day % 10), ' ',
    Char.ofNat (48 + v.hour / 10), Char.ofNat (48 + v.hour % 10), ':',
    Char.ofNat (48 + v.min / 10), Char.ofNat (48 + v.min % 10), ':',
    Char.ofNat (48 + v.sec / 10), Char.ofNat (48 + v.sec % 10), '.'] ++ padNano v.nano

/-- The characters the formatter can ever emit on an in-range value:
decimal digits and the four separators.  No alphabetic character is among
them, so no weekday name, month name or `GMT` suffix can occur. -/
def okChars : List Char :=
  ['0', '-', '1', ':', '2', ' ', '3', '.', '4', '9', '5', '8', '6', '7']

theorem digitChar_mem : ∀ m : Nat, m < 10 → Nat.digitChar m ∈ okChars := by decide

theorem digit_mem : ∀ d : Nat, d ≤ 9 → Char.ofNat (48 + d) ∈ okChars := by decide

theorem okChars_not_alpha : ∀ ch ∈ okChars, ¬ ch.isAlpha = true := by decide

theorem toDigitsCore_mem (f : Nat) : ∀ (n : Nat) (acc : List Char),
    (∀ ch ∈ acc, ch ∈ okChars) → ∀ ch ∈ Nat.toDigitsCore 10 f n acc, ch ∈ okChars := by
  induction f with
  | zero =>
    intro n acc hacc ch hch
    exact hacc ch hch
  | succ f ih =>
    intro n acc hacc ch hch
    simp only [Nat.toDigitsCore] at hch
    split at hch
    · rcases List.mem_cons.mp hch with h | h
      · exact h ▸ digitChar_mem _ (by omega)
      · exact hacc ch h
    · refine ih _ _ ?_ ch hch
      intro c hc
      rcases List.mem_cons.mp hc with h | h
      · exact h ▸ digitChar_mem _ (by omega)
      · exact hacc c h

theorem repr_mem (n : Nat) : ∀ ch ∈ (Nat.repr n).toList, ch ∈ okChars := by
  intro ch hch
  have he : (Nat.repr n).toList = Nat.toDigitsCore 10 (n + 1) n [] := rfl
  rw [he] at hch
  exact toDigitsCore_mem _ _ _ (by intro c hc; cases hc) ch hch

theorem str_append_toList (s t : String) : (s ++ t).toList = s.toList ++ t.toList := rfl

theorem mk_toList (l : List Char) : (String.mk l).toList = l := rfl

set_option maxHeartbeats 4000000 in
/-- Claim C9: for every `LogDate`, the `Display` formatter produces
exactly the canonical layout `YYYY-MM-DD HH:MM:SS.` (each field
zero-padded to its fixed width) followed by the nano field as a
minimum-width-9, space-padded decimal; and for every value within the
documented field ranges each emitted character is a digit or one of
`-`, `:`, space, `.` — in particular never an alphabetic character, so
the output never contains a weekday name, a month name, or a `GMT`
suffix, regardless of which grammar (if any) produced the value. -/
theorem claim_C9 :
    (∀ v : LogDate, formatLogDate v = canonicalLayout v) ∧
    (∀ v : LogDate, v.sec < 60 → v.min < 60 → v.hour < 24 → v.day < 32 →
      v.mon ≤ 12 → v.year ≤ 9999 →
      ∀ ch ∈ (formatLogDate v).toList, ch ∈ okChars ∧ ¬ ch.isAlpha = true) := by
  have hEq : ∀ v : LogDate, formatLogDate v = canonicalLayout v := fun v => rfl
  refine ⟨hEq, ?_⟩
  intro v h1 h2 h3 h4 h5 h6 ch hch
  suffices hmem : ch ∈ okChars from ⟨hmem, okChars_not_alpha ch hmem⟩
  rw [hEq v] at hch
  rw [show canonicalLayout v =
    String.mk [Char.ofNat (48 + v.year / 1000), Char.ofNat (48 + v.year / 100 % 10),
      Char.ofNat (48 + v.year / 10 % 10), Char.ofNat (48 + v.year % 10), '-',
      Char.ofNat (48 + v.mon / 10), Char.ofNat (48 + v.mon % 10), '-',
      Char.ofNat (48 + v.day / 10), Char.ofNat (48 + v.day % 10), ' ',
      Char.ofNat (48 + v.hour / 10), Char.ofNat (48 + v.hour % 10), ':',
      Char.ofNat (48 + v.min / 10), Char.ofNat (48 + v.min % 10), ':',
      Char.ofNat (48 + v.sec / 10), Char.ofNat (48 + v.sec % 10), '.'] ++ padNano v.nano
    from rfl, str_append_toList] at hch
  rcases List.mem_append.mp hch with h | h
  · rw [mk_toList] at h
    simp only [List.mem_cons] at h
    rcases h with rfl|rfl|rfl|rfl|rfl|rfl|rfl|rfl|rfl|rfl|rfl|rfl|rfl|rfl|rfl|rfl|rfl|rfl|rfl|rfl|hnil
    · exact digit_mem _ (by omega)
    · exact digit_mem _ (by omega)
    · exact digit_mem _ (by omega)
    · exact digit_mem _ (by omega)
    · decide
    · exact digit_mem _ (by omega)
    · exact digit_mem _ (by omega)
    · decide
    · exact digit_mem _ (by omega)
    · exact digit_mem _ (by omega)
    · decide
    · exact digit_mem _ (by omega)
    · exact digit_mem _ (by omega)
    · decide
    · exact digit_mem _ (by omega)
    · exact digit_mem _ (by omega)
    · decide
    · exact digit_mem _ (by omega)
    · exact digit_mem _ (by omega)
    · decide
    · cases hnil
  · rw [show (padNano v.nano).toList =
      List.replicate (9 - (Nat.repr v.nano).length) ' ' ++ (Nat.repr v.nano).toList
      from rfl] at h
    rcases List.mem_append.mp h with h | h
    · rw [List.eq_of_mem_replicate h]
      decide
    · exact repr_mem _ ch h

theorem claim_C9_witness :
    ((⟨123456, 37, 49, 8, 6, 11, 1994, 7⟩ : LogDate).sec < 60 ∧
     (⟨123456, 37, 49, 8, 6, 11, 1994, 7⟩ : LogDate).min < 60 ∧
     (⟨123456, 37, 49, 8, 6, 11, 1994, 7⟩ : LogDate).hour < 24 ∧
     (⟨123456, 37, 49, 8, 6, 11, 1994, 7⟩ : LogDate).day < 32 ∧
     (⟨123456, 37, 49, 8, 6, 11, 1994, 7⟩ : LogDate).mon ≤ 12 ∧
     (⟨123456, 37, 49, 8, 6, 11, 1994, 7⟩ : LogDate).year ≤ 9999) ∧
    (∀ ch ∈ (formatLogDate ⟨123456, 37, 49, 8, 6, 11, 1994, 7⟩).toList,
      ch ∈ okChars ∧ ¬ ch.isAlpha = true) :=
  ⟨by decide, claim_C9.2 ⟨123456, 37, 49, 8, 6, 11, 1994, 7⟩ (by decide) (by decide)
    (by decide) (by decide) (by decide) (by decide)⟩

theorem claim_C8_witness :
    ((fromSystemTime 1234567890 5).isSome ↔ (1234567890 : Nat) < 253402300800) ∧
    ((253402300800 : Nat) ≥ 253402300800 → fromSystemTime 253402300800 5 = none) :=
  ⟨(claim_C8 1234567890 5).1, (claim_C8 253402300800 5).2⟩

end FastLog
